import Mathlib

/-!
Shallow embedding of the promotion-studio prediction engine
(src/python/acquisition_model.py, src/python/churn_model.py,
src/python/migration_model.py) and of the cohort profile-mixing
subsystem (src/scripts/regenerate_data_option1.py).

Python floats are modelled as exact rationals for the linear /
polynomial parts of the code and as real numbers wherever the code
applies `exp`, `sqrt` or division by a transcendental quantity.
Optional dictionary keys are modelled as `Option` fields; `d.get(k, v)`
becomes `Option.getD`.
-/

/-! ### Acquisition model (src/python/acquisition_model.py) -/

/-- A promotion record; only `discount_pct` is read by the models. -/
structure Promotion where
  discount_pct : Option ℚ := none

/-- Scenario dictionary as read by `predict_acquisition`. -/
structure AcqScenario where
  new_price : Option ℚ := none
  promotion : Option Promotion := none
  segment_elasticity : Option ℚ := none

/-- The fixed `ACQUISITION_COEFFICIENTS` table. -/
structure AcqCoeffs where
  intercept : ℚ
  price : ℚ
  promo_discount : ℚ
  is_promo : ℚ
  segment_elasticity_factor : ℚ

def ACQUISITION_COEFFICIENTS : AcqCoeffs :=
  { intercept := 6.5
    price := -0.25
    promo_discount := 0.03
    is_promo := 0.4
    segment_elasticity_factor := 0.12 }

/-- Feature extraction plus the linear predictor `log_adds` computed
inside `predict_acquisition` (lines 31-49 of the source). -/
def acquisition_log_adds (s : AcqScenario) : ℚ :=
  let price := s.new_price.getD 8.99
  let promo_discount : ℚ :=
    match s.promotion with
    | some promo => promo.discount_pct.getD 0 / 100
    | none => 0
  let is_promo : ℚ :=
    match s.promotion with
    | some _ => 1
    | none => 0
  let segment_elasticity := s.segment_elasticity.getD (-1.8)
  ACQUISITION_COEFFICIENTS.intercept +
    ACQUISITION_COEFFICIENTS.price * price +
    ACQUISITION_COEFFICIENTS.promo_discount * promo_discount * 100 +
    ACQUISITION_COEFFICIENTS.is_promo * is_promo +
    ACQUISITION_COEFFICIENTS.segment_elasticity_factor * |segment_elasticity|

/-- Result dictionary of `predict_acquisition`. -/
structure AcqResult where
  predicted_adds : ℝ
  ci_lower : ℝ
  ci_upper : ℝ
  elasticity : ℚ
  confidence : ℝ

/-- `predict_acquisition` (lines 18-69 of the source). -/
noncomputable def predict_acquisition (s : AcqScenario) : AcqResult :=
  let predicted_adds : ℝ := Real.exp (acquisition_log_adds s)
  let se := Real.sqrt predicted_adds
  { predicted_adds := predicted_adds
    ci_lower := max 0 (predicted_adds - 1.96 * se)
    ci_upper := predicted_adds + 1.96 * se
    elasticity := ACQUISITION_COEFFICIENTS.price * s.new_price.getD 8.99
    confidence := if 0 < predicted_adds then se / predicted_adds * 100 else 0 }

/-- A segment record `{name, size, elasticity}`; `elasticity` is an
optional key in the source dictionaries. -/
structure Segment where
  name : String
  size : ℚ
  elasticity : Option ℚ := none

/-- Per-segment acquisition result record. -/
structure SegAcqResult where
  name : String
  size : ℚ
  predicted_adds : ℝ
  elasticity : ℚ
  lift_at_minus_5pct : ℚ
  lift_at_plus_5pct : ℚ
  confidence : ℝ

/-- `predict_acquisition_by_segment` (lines 72-116 of the source).
The source reads `segment['elasticity']` with direct indexing when it
builds the lift figures and the result record, so a segment without an
`elasticity` key raises a `KeyError`; this is modelled by returning
`none` for the whole call, while `segment.get('elasticity', -1.8)`
used for the underlying prediction keeps its default. -/
noncomputable def predict_acquisition_by_segment
    (scenario : AcqScenario) (segments : List Segment) :
    Option (List SegAcqResult) :=
  segments.mapM fun segment =>
    let seg_scenario : AcqScenario :=
      { scenario with segment_elasticity := some (segment.elasticity.getD (-1.8)) }
    let prediction := predict_acquisition seg_scenario
    let segment_adds := prediction.predicted_adds * (segment.size / 50000 : ℚ)
    match segment.elasticity with
    | none => none
    | some elasticity =>
        let lift_minus_5 := -5.0 * elasticity
        let lift_plus_5 := 5.0 * elasticity
        let segment_confidence : ℝ :=
          if 0 < segment_adds then
            1.0 / Real.sqrt (max segment_adds 1) * 100
          else 10.0
        some
          { name := segment.name
            size := segment.size
            predicted_adds := segment_adds
            elasticity := elasticity
            lift_at_minus_5pct := lift_minus_5
            lift_at_plus_5pct := lift_plus_5
            confidence := min segment_confidence 15.0 }

/-! ### Repeat-loss model (src/python/churn_model.py) -/

/-- The fixed `REPEAT_LOSS_COEFFICIENTS` table. -/
structure RLCoeffs where
  intercept : ℚ
  price_change_pct : ℚ
  price_x_0_4wks : ℚ
  price_x_4_8wks : ℚ
  price_x_8_12wks : ℚ
  price_x_12plus : ℚ

def REPEAT_LOSS_COEFFICIENTS : RLCoeffs :=
  { intercept := -2.944
    price_change_pct := 0.01
    price_x_0_4wks := 0.006
    price_x_4_8wks := 0.018
    price_x_8_12wks := 0.028
    price_x_12plus := 0.008 }

/-- `logistic` sigmoid from the source. -/
noncomputable def logistic (x : ℝ) : ℝ := 1 / (1 + Real.exp (-x))

/-- Scenario dictionary as read by the repeat-loss model. -/
structure ChurnScenario where
  price_change_pct : Option ℚ := none
  baseline_repeat_loss : Option ℚ := none

/-- The per-horizon `log_odds` computed in the loop body of
`predict_repeat_loss_by_horizon`, with `coef` the horizon-specific
interaction coefficient. -/
def horizon_log_odds (s : ChurnScenario) (coef : ℚ) : ℚ :=
  REPEAT_LOSS_COEFFICIENTS.intercept +
    REPEAT_LOSS_COEFFICIENTS.price_change_pct * s.price_change_pct.getD 0 +
    coef * s.price_change_pct.getD 0

/-- One horizon entry of the result of `predict_repeat_loss_by_horizon`. -/
structure RepeatLossEntry where
  repeat_loss_rate : ℝ
  repeat_loss_uplift : ℝ
  repeat_loss_uplift_pp : ℝ

/-- Loop body of `predict_repeat_loss_by_horizon` for one horizon. -/
noncomputable def horizon_entry (s : ChurnScenario) (coef : ℚ) : RepeatLossEntry :=
  let log_odds := horizon_log_odds s coef
  let repeat_loss_prob := logistic log_odds
  let repeat_loss_uplift := repeat_loss_prob - (s.baseline_repeat_loss.getD 0.05 : ℝ)
  { repeat_loss_rate := repeat_loss_prob
    repeat_loss_uplift := repeat_loss_uplift
    repeat_loss_uplift_pp := repeat_loss_uplift * 100 }

/-- Result of `predict_repeat_loss_by_horizon`: the four fixed horizons
`"0-4 Weeks"`, `"4-8 Weeks"`, `"8-12 Weeks"`, `"12+ Weeks"`. -/
structure HorizonResults where
  h0_4 : RepeatLossEntry
  h4_8 : RepeatLossEntry
  h8_12 : RepeatLossEntry
  h12plus : RepeatLossEntry

/-- `predict_repeat_loss_by_horizon` (lines 25-68 of the source). -/
noncomputable def predict_repeat_loss_by_horizon (s : ChurnScenario) : HorizonResults :=
  { h0_4 := horizon_entry s REPEAT_LOSS_COEFFICIENTS.price_x_0_4wks
    h4_8 := horizon_entry s REPEAT_LOSS_COEFFICIENTS.price_x_4_8wks
    h8_12 := horizon_entry s REPEAT_LOSS_COEFFICIENTS.price_x_8_12wks
    h12plus := horizon_entry s REPEAT_LOSS_COEFFICIENTS.price_x_12plus }

/-- Per-segment repeat-loss result record (dynamic keys
`repeat_loss_<horizon>` of the source made into fields). -/
structure SegRepeatLoss where
  name : String
  size : ℚ
  repeat_loss_0_4_weeks : ℝ
  repeat_loss_4_8_weeks : ℝ
  repeat_loss_8_12_weeks : ℝ
  repeat_loss_12plus_weeks : ℝ

/-- `predict_repeat_loss_by_segment` (lines 71-106 of the source).
Note the source default for a missing segment elasticity is `-2.0`. -/
noncomputable def predict_repeat_loss_by_segment
    (s : ChurnScenario) (segments : List Segment) : List SegRepeatLoss :=
  segments.map fun segment =>
    let horizons := predict_repeat_loss_by_horizon s
    let elasticity : ℚ := |segment.elasticity.getD (-2.0)|
    let segment_multiplier : ℚ := 0.7 + min elasticity 4.0 / 4.0 * 0.6
    { name := segment.name
      size := segment.size
      repeat_loss_0_4_weeks := horizons.h0_4.repeat_loss_uplift_pp * segment_multiplier
      repeat_loss_4_8_weeks := horizons.h4_8.repeat_loss_uplift_pp * segment_multiplier
      repeat_loss_8_12_weeks := horizons.h8_12.repeat_loss_uplift_pp * segment_multiplier
      repeat_loss_12plus_weeks := horizons.h12plus.repeat_loss_uplift_pp * segment_multiplier }

/-! ### Tier migration model (src/python/migration_model.py) -/

/-- Scenario dictionary as read by the migration model. `promotion`
is only tested for truthiness there. -/
structure MigScenario where
  tier : Option String := none
  new_price : Option ℚ := none
  promotion : Bool := false
  ad_supported_price : Option ℚ := none
  ad_free_price : Option ℚ := none

/-- One row of `MIGRATION_COEFFICIENTS_2TIER`. -/
structure Coef2TRow where
  intercept : ℚ
  price_gap : ℚ
  has_promo : ℚ
  tenure_months : ℚ

/-- The `MIGRATION_COEFFICIENTS_2TIER` table. -/
structure Mig2TCoeffs where
  upgrade : Coef2TRow
  downgrade : Coef2TRow
  cancel : Coef2TRow

def MIGRATION_COEFFICIENTS_2TIER : Mig2TCoeffs :=
  { upgrade := { intercept := -1.5, price_gap := -0.08, has_promo := 0.4, tenure_months := 0.01 }
    downgrade := { intercept := -2.8, price_gap := 0.08, has_promo := -0.3, tenure_months := -0.015 }
    cancel := { intercept := -2.5, price_gap := 0.05, has_promo := -0.2, tenure_months := -0.02 } }

/-- Coefficient row of shape `{intercept, value_savings_pct, has_content_need, tenure_months}`. -/
structure ToBundleRow where
  intercept : ℚ
  value_savings_pct : ℚ
  has_content_need : ℚ
  tenure_months : ℚ

/-- Coefficient row of shape `{intercept, price_pressure, tenure_months}`. -/
structure PressureRow where
  intercept : ℚ
  price_pressure : ℚ
  tenure_months : ℚ

/-- The `BUNDLE_COEFFICIENTS` table. -/
structure BundleCoeffs where
  ad_supp_to_bundle : ToBundleRow
  ad_free_to_bundle : ToBundleRow
  bundle_to_ad_free : PressureRow
  bundle_to_ad_supp : PressureRow

def BUNDLE_COEFFICIENTS : BundleCoeffs :=
  { ad_supp_to_bundle :=
      { intercept := -2.6, value_savings_pct := 0.020, has_content_need := 0.5, tenure_months := 0.006 }
    ad_free_to_bundle :=
      { intercept := -0.5, value_savings_pct := 0.03, has_content_need := 0.8, tenure_months := 0.012 }
    bundle_to_ad_free :=
      { intercept := -4.0, price_pressure := 0.10, tenure_months := -0.018 }
    bundle_to_ad_supp :=
      { intercept := -5.0, price_pressure := 0.15, tenure_months := -0.025 } }

/-- Coefficient row of shape `{intercept, price_sensitivity, content_satisfaction, tenure_months}`. -/
structure ToBasicRow where
  intercept : ℚ
  price_sensitivity : ℚ
  content_satisfaction : ℚ
  tenure_months : ℚ

/-- Coefficient row of shape `{intercept, content_need, tenure_months}`. -/
structure ContentNeedRow where
  intercept : ℚ
  content_need : ℚ
  tenure_months : ℚ

/-- The `BASIC_COEFFICIENTS` table. -/
structure BasicCoeffs where
  ad_supp_to_basic : ToBasicRow
  basic_to_ad_supp : ContentNeedRow
  ad_free_to_basic : PressureRow
  basic_to_ad_free : ContentNeedRow

def BASIC_COEFFICIENTS : BasicCoeffs :=
  { ad_supp_to_basic :=
      { intercept := -1.4, price_sensitivity := 0.12, content_satisfaction := -0.18, tenure_months := -0.010 }
    basic_to_ad_supp :=
      { intercept := -1.2, content_need := 0.22, tenure_months := 0.015 }
    ad_free_to_basic :=
      { intercept := -2.8, price_pressure := 0.15, tenure_months := -0.018 }
    basic_to_ad_free :=
      { intercept := -3.0, content_need := 0.20, tenure_months := 0.010 } }

/-- Python's `str.lower()`, written as a character map so that it
reduces inside the kernel. -/
def str_lower (t : String) : String := ⟨t.data.map Char.toLower⟩

/-- Effective tier label used by `detect_tier_config`:
`scenario.get('tier', 'ad_supported').lower()`. -/
def scenario_tier_label (s : MigScenario) : String :=
  str_lower (s.tier.getD "ad_supported")

/-- Effective price used by `detect_tier_config`:
`scenario.get('new_price', 0)`. -/
def scenario_detect_price (s : MigScenario) : ℚ :=
  s.new_price.getD 0

/-- `detect_tier_config` (lines 110-124 of the source). -/
def detect_tier_config (s : MigScenario) : String :=
  let tier := scenario_tier_label s
  let new_price := scenario_detect_price s
  if tier = "bundle" ∨ (13.99 ≤ new_price ∧ new_price ≤ 15.99) then "3-tier-bundle"
  else if tier = "basic" ∨ (1.99 ≤ new_price ∧ new_price ≤ 3.99) then "3-tier-basic"
  else "2-tier"

/-- Maximum of the four utilities, `np.max(x)` for the 4-vectors fed to
`softmax` in this module. -/
noncomputable def smMax (x0 x1 x2 x3 : ℝ) : ℝ :=
  max (max x0 x1) (max x2 x3)

/-- `np.sum(np.exp(x - np.max(x)))` for a 4-vector. -/
noncomputable def smDenom (x0 x1 x2 x3 : ℝ) : ℝ :=
  Real.exp (x0 - smMax x0 x1 x2 x3) + Real.exp (x1 - smMax x0 x1 x2 x3) +
    Real.exp (x2 - smMax x0 x1 x2 x3) + Real.exp (x3 - smMax x0 x1 x2 x3)

/-- Result vector of `softmax` on a 4-vector. -/
structure Probs4 where
  p0 : ℝ
  p1 : ℝ
  p2 : ℝ
  p3 : ℝ

/-- `softmax` (lines 105-108 of the source), specialised to the
4-element utility vectors this module feeds it. -/
noncomputable def softmax4 (x0 x1 x2 x3 : ℝ) : Probs4 :=
  { p0 := Real.exp (x0 - smMax x0 x1 x2 x3) / smDenom x0 x1 x2 x3
    p1 := Real.exp (x1 - smMax x0 x1 x2 x3) / smDenom x0 x1 x2 x3
    p2 := Real.exp (x2 - smMax x0 x1 x2 x3) / smDenom x0 x1 x2 x3
    p3 := Real.exp (x3 - smMax x0 x1 x2 x3) / smDenom x0 x1 x2 x3 }

/-- Row of the `from_ad_supported` result dictionaries:
keys `stay, to_ad_free, to_bundle, to_basic, cancel`. -/
structure RowFromAS where
  stay : ℝ
  to_ad_free : ℝ
  to_bundle : ℝ
  to_basic : ℝ
  cancel : ℝ

/-- Row of the `from_ad_free` result dictionaries:
keys `stay, to_ad_supported, to_bundle, to_basic, cancel`. -/
structure RowFromAF where
  stay : ℝ
  to_ad_supported : ℝ
  to_bundle : ℝ
  to_basic : ℝ
  cancel : ℝ

/-- Row of the `from_bundle` result dictionary:
keys `stay, to_ad_free, to_ad_supported, to_basic, cancel`. -/
structure RowFromBundle where
  stay : ℝ
  to_ad_free : ℝ
  to_ad_supported : ℝ
  to_basic : ℝ
  cancel : ℝ

/-- Row of the `from_basic` result dictionary:
keys `stay, to_ad_supported, to_ad_free, to_bundle, cancel`. -/
structure RowFromBasic where
  stay : ℝ
  to_ad_supported : ℝ
  to_ad_free : ℝ
  to_bundle : ℝ
  cancel : ℝ

/-- Result dictionary of the migration predictors: each tier
configuration returns rows only for its own origin tiers. -/
structure MigResult where
  from_ad_supported : Option RowFromAS := none
  from_ad_free : Option RowFromAF := none
  from_bundle : Option RowFromBundle := none
  from_basic : Option RowFromBasic := none
  tier_config : String

/-- Utility `u_upgrade` of `predict_2tier` (from Ad-Lite). -/
def u_upgrade_2t (s : MigScenario) : ℚ :=
  let price_gap := s.ad_free_price.getD 8.99 - s.ad_supported_price.getD 5.99
  let has_promo : ℚ := if s.promotion then 1 else 0
  MIGRATION_COEFFICIENTS_2TIER.upgrade.intercept +
    MIGRATION_COEFFICIENTS_2TIER.upgrade.price_gap * price_gap +
    MIGRATION_COEFFICIENTS_2TIER.upgrade.has_promo * has_promo +
    MIGRATION_COEFFICIENTS_2TIER.upgrade.tenure_months * 12

/-- Utility `u_cancel_as` of `predict_2tier` (from Ad-Lite). -/
def u_cancel_as_2t (s : MigScenario) : ℚ :=
  let price_gap := s.ad_free_price.getD 8.99 - s.ad_supported_price.getD 5.99
  let has_promo : ℚ := if s.promotion then 1 else 0
  MIGRATION_COEFFICIENTS_2TIER.cancel.intercept +
    MIGRATION_COEFFICIENTS_2TIER.cancel.price_gap * price_gap +
    MIGRATION_COEFFICIENTS_2TIER.cancel.has_promo * has_promo +
    MIGRATION_COEFFICIENTS_2TIER.cancel.tenure_months * 12

/-- Utility `u_downgrade` of `predict_2tier` (from Ad-Free, uses
`abs(price_gap)`). -/
def u_downgrade_2t (s : MigScenario) : ℚ :=
  let price_gap := s.ad_free_price.getD 8.99 - s.ad_supported_price.getD 5.99
  let has_promo : ℚ := if s.promotion then 1 else 0
  MIGRATION_COEFFICIENTS_2TIER.downgrade.intercept +
    MIGRATION_COEFFICIENTS_2TIER.downgrade.price_gap * |price_gap| +
    MIGRATION_COEFFICIENTS_2TIER.downgrade.has_promo * has_promo +
    MIGRATION_COEFFICIENTS_2TIER.downgrade.tenure_months * 12

/-- Utility `u_cancel_af` of `predict_2tier` (from Ad-Free, uses
`abs(price_gap)`). -/
def u_cancel_af_2t (s : MigScenario) : ℚ :=
  let price_gap := s.ad_free_price.getD 8.99 - s.ad_supported_price.getD 5.99
  let has_promo : ℚ := if s.promotion then 1 else 0
  MIGRATION_COEFFICIENTS_2TIER.cancel.intercept +
    MIGRATION_COEFFICIENTS_2TIER.cancel.price_gap * |price_gap| +
    MIGRATION_COEFFICIENTS_2TIER.cancel.has_promo * has_promo +
    MIGRATION_COEFFICIENTS_2TIER.cancel.tenure_months * 12

/-- `predict_2tier` (lines 358-417 of the source). The structurally
unreachable destination gets utility `-999` before the softmax, and its
probability slot is reported as the literal `0.0` in the result. -/
noncomputable def predict_2tier (s : MigScenario) : MigResult :=
  let probs_as := softmax4 0 (u_upgrade_2t s) (-999) (u_cancel_as_2t s)
  let probs_af := softmax4 0 (-999) (u_downgrade_2t s) (u_cancel_af_2t s)
  { from_ad_supported := some
      { stay := probs_as.p0, to_ad_free := probs_as.p1, to_bundle := 0, to_basic := 0,
        cancel := probs_as.p3 }
    from_ad_free := some
      { stay := probs_af.p0, to_ad_supported := probs_af.p2, to_bundle := 0, to_basic := 0,
        cancel := probs_af.p3 }
    from_bundle := none
    from_basic := none
    tier_config := "2-tier" }

/-- `predict_3tier_bundle` (lines 130-240 of the source). -/
noncomputable def predict_3tier_bundle (s : MigScenario) : MigResult :=
  let has_promo : ℚ := if s.promotion then 1 else 0
  let avg_tenure : ℚ := 12
  let savings_pct : ℚ := 21.0
  let u_to_af : ℚ :=
    MIGRATION_COEFFICIENTS_2TIER.upgrade.intercept +
      MIGRATION_COEFFICIENTS_2TIER.upgrade.price_gap * 3.0 +
      MIGRATION_COEFFICIENTS_2TIER.upgrade.has_promo * has_promo +
      MIGRATION_COEFFICIENTS_2TIER.upgrade.tenure_months * avg_tenure
  let u_to_bundle : ℚ :=
    BUNDLE_COEFFICIENTS.ad_supp_to_bundle.intercept +
      BUNDLE_COEFFICIENTS.ad_supp_to_bundle.value_savings_pct * savings_pct +
      BUNDLE_COEFFICIENTS.ad_supp_to_bundle.has_content_need * 0.15 +
      BUNDLE_COEFFICIENTS.ad_supp_to_bundle.tenure_months * avg_tenure
  let u_cancel_as : ℚ :=
    MIGRATION_COEFFICIENTS_2TIER.cancel.intercept +
      MIGRATION_COEFFICIENTS_2TIER.cancel.has_promo * has_promo +
      MIGRATION_COEFFICIENTS_2TIER.cancel.tenure_months * avg_tenure
  let probs_as := softmax4 0 u_to_af u_to_bundle u_cancel_as
  let u_af_to_bundle : ℚ :=
    BUNDLE_COEFFICIENTS.ad_free_to_bundle.intercept +
      BUNDLE_COEFFICIENTS.ad_free_to_bundle.value_savings_pct * savings_pct +
      BUNDLE_COEFFICIENTS.ad_free_to_bundle.has_content_need * 0.45 +
      BUNDLE_COEFFICIENTS.ad_free_to_bundle.tenure_months * avg_tenure
  let u_af_to_as : ℚ :=
    MIGRATION_COEFFICIENTS_2TIER.downgrade.intercept +
      MIGRATION_COEFFICIENTS_2TIER.downgrade.price_gap * 3.0 +
      MIGRATION_COEFFICIENTS_2TIER.downgrade.has_promo * has_promo +
      MIGRATION_COEFFICIENTS_2TIER.downgrade.tenure_months * avg_tenure
  let u_cancel_af : ℚ :=
    MIGRATION_COEFFICIENTS_2TIER.cancel.intercept - 0.3 +
      MIGRATION_COEFFICIENTS_2TIER.cancel.has_promo * has_promo +
      MIGRATION_COEFFICIENTS_2TIER.cancel.tenure_months * avg_tenure
  let probs_af := softmax4 0 u_af_to_bundle u_af_to_as u_cancel_af
  let u_bundle_to_af : ℚ :=
    BUNDLE_COEFFICIENTS.bundle_to_ad_free.intercept +
      BUNDLE_COEFFICIENTS.bundle_to_ad_free.price_pressure * 2.0 +
      BUNDLE_COEFFICIENTS.bundle_to_ad_free.tenure_months * avg_tenure
  let u_bundle_to_as : ℚ :=
    BUNDLE_COEFFICIENTS.bundle_to_ad_supp.intercept +
      BUNDLE_COEFFICIENTS.bundle_to_ad_supp.price_pressure * 3.0 +
      BUNDLE_COEFFICIENTS.bundle_to_ad_supp.tenure_months * avg_tenure
  let u_cancel_bundle : ℚ :=
    MIGRATION_COEFFICIENTS_2TIER.cancel.intercept - 0.5 +
      MIGRATION_COEFFICIENTS_2TIER.cancel.has_promo * has_promo +
      MIGRATION_COEFFICIENTS_2TIER.cancel.tenure_months * avg_tenure
  let probs_bundle := softmax4 0 u_bundle_to_af u_bundle_to_as u_cancel_bundle
  { from_ad_supported := some
      { stay := probs_as.p0, to_ad_free := probs_as.p1, to_bundle := probs_as.p2,
        to_basic := 0, cancel := probs_as.p3 }
    from_ad_free := some
      { stay := probs_af.p0, to_ad_supported := probs_af.p2, to_bundle := probs_af.p1,
        to_basic := 0, cancel := probs_af.p3 }
    from_bundle := some
      { stay := probs_bundle.p0, to_ad_free := probs_bundle.p1,
        to_ad_supported := probs_bundle.p2, to_basic := 0, cancel := probs_bundle.p3 }
    from_basic := none
    tier_config := "3-tier-bundle" }

/-- `predict_3tier_basic` (lines 246-352 of the source). -/
noncomputable def predict_3tier_basic (s : MigScenario) : MigResult :=
  let has_promo : ℚ := if s.promotion then 1 else 0
  let avg_tenure : ℚ := 12
  let u_basic_to_as : ℚ :=
    BASIC_COEFFICIENTS.basic_to_ad_supp.intercept +
      BASIC_COEFFICIENTS.basic_to_ad_supp.content_need * 0.4 +
      BASIC_COEFFICIENTS.basic_to_ad_supp.tenure_months * avg_tenure
  let u_basic_to_af : ℚ :=
    BASIC_COEFFICIENTS.basic_to_ad_free.intercept +
      BASIC_COEFFICIENTS.basic_to_ad_free.content_need * 0.2 +
      BASIC_COEFFICIENTS.basic_to_ad_free.tenure_months * avg_tenure
  let u_cancel_basic : ℚ :=
    MIGRATION_COEFFICIENTS_2TIER.cancel.intercept + 0.5 +
      MIGRATION_COEFFICIENTS_2TIER.cancel.has_promo * has_promo +
      MIGRATION_COEFFICIENTS_2TIER.cancel.tenure_months * avg_tenure
  let probs_basic := softmax4 0 u_basic_to_as u_basic_to_af u_cancel_basic
  let u_as_to_af : ℚ :=
    MIGRATION_COEFFICIENTS_2TIER.upgrade.intercept +
      MIGRATION_COEFFICIENTS_2TIER.upgrade.price_gap * 3.0 +
      MIGRATION_COEFFICIENTS_2TIER.upgrade.has_promo * has_promo +
      MIGRATION_COEFFICIENTS_2TIER.upgrade.tenure_months * avg_tenure
  let u_as_to_basic : ℚ :=
    BASIC_COEFFICIENTS.ad_supp_to_basic.intercept +
      BASIC_COEFFICIENTS.ad_supp_to_basic.price_sensitivity * 0.35 +
      BASIC_COEFFICIENTS.ad_supp_to_basic.content_satisfaction * 0.20 +
      BASIC_COEFFICIENTS.ad_supp_to_basic.tenure_months * avg_tenure
  let u_cancel_as : ℚ :=
    MIGRATION_COEFFICIENTS_2TIER.cancel.intercept +
      MIGRATION_COEFFICIENTS_2TIER.cancel.has_promo * has_promo +
      MIGRATION_COEFFICIENTS_2TIER.cancel.tenure_months * avg_tenure
  let probs_as := softmax4 0 u_as_to_af u_as_to_basic u_cancel_as
  let u_af_to_as : ℚ :=
    MIGRATION_COEFFICIENTS_2TIER.downgrade.intercept +
      MIGRATION_COEFFICIENTS_2TIER.downgrade.price_gap * 3.0 +
      MIGRATION_COEFFICIENTS_2TIER.downgrade.has_promo * has_promo +
      MIGRATION_COEFFICIENTS_2TIER.downgrade.tenure_months * avg_tenure
  let u_af_to_basic : ℚ :=
    BASIC_COEFFICIENTS.ad_free_to_basic.intercept +
      BASIC_COEFFICIENTS.ad_free_to_basic.price_pressure * 2.0 +
      BASIC_COEFFICIENTS.ad_free_to_basic.tenure_months * avg_tenure
  let u_cancel_af : ℚ :=
    MIGRATION_COEFFICIENTS_2TIER.cancel.intercept - 0.3 +
      MIGRATION_COEFFICIENTS_2TIER.cancel.has_promo * has_promo +
      MIGRATION_COEFFICIENTS_2TIER.cancel.tenure_months * avg_tenure
  let probs_af := softmax4 0 u_af_to_as u_af_to_basic u_cancel_af
  { from_ad_supported := some
      { stay := probs_as.p0, to_ad_free := probs_as.p1, to_bundle := 0,
        to_basic := probs_as.p2, cancel := probs_as.p3 }
    from_ad_free := some
      { stay := probs_af.p0, to_ad_supported := probs_af.p1, to_bundle := 0,
        to_basic := probs_af.p2, cancel := probs_af.p3 }
    from_bundle := none
    from_basic := some
      { stay := probs_basic.p0, to_ad_supported := probs_basic.p1,
        to_ad_free := probs_basic.p2, to_bundle := 0, cancel := probs_basic.p3 }
    tier_config := "3-tier-basic" }

/-- `predict_migration_matrix` (lines 423-440 of the source). -/
noncomputable def predict_migration_matrix (s : MigScenario) : MigResult :=
  if detect_tier_config s = "3-tier-bundle" then predict_3tier_bundle s
  else if detect_tier_config s = "3-tier-basic" then predict_3tier_basic s
  else predict_2tier s

/-! ### Cohort profile mixing (src/scripts/regenerate_data_option1.py) -/

/-- The 5-bucket time-lag distribution of an archetype. -/
structure TimeLagDistribution where
  t0_4_weeks : ℚ
  t4_8_weeks : ℚ
  t8_12_weeks : ℚ
  t12_16_weeks : ℚ
  t16_20_weeks : ℚ

/-- One behavioral archetype of `ELASTICITY_PROFILES`.  Only the keys
read by `get_profile_weights` / `calculate_segment_elasticity` are
modelled; the purely descriptive `description` string and the extra
keys that no mixing code reads (`promo_spike_multiplier`,
`content_conditional_multiplier`, `ad_aversion_factor`,
`repeat_loss_acceleration`) are omitted. -/
structure ArchetypeProfile where
  base_acquisition_elasticity : ℚ
  base_repeat_loss_elasticity : ℚ
  base_migration_upgrade : ℚ
  base_migration_downgrade : ℚ
  tenure_decay_rate : ℚ
  engagement_offset : ℚ
  price_history_habituation : ℚ
  repeat_loss_curve_type : String
  migration_asymmetry_factor : ℚ
  time_lag_distribution : TimeLagDistribution

def profile_ultra_loyal : ArchetypeProfile :=
  { base_acquisition_elasticity := -0.65
    base_repeat_loss_elasticity := 0.25
    base_migration_upgrade := 1.4
    base_migration_downgrade := 0.5
    tenure_decay_rate := 0.08
    engagement_offset := 0.4
    price_history_habituation := 0.2
    repeat_loss_curve_type := "delayed_ramp"
    migration_asymmetry_factor := 1.8
    time_lag_distribution := ⟨0.05, 0.10, 0.20, 0.35, 0.30⟩ }

def profile_value_conscious : ArchetypeProfile :=
  { base_acquisition_elasticity := -1.8
    base_repeat_loss_elasticity := 0.9
    base_migration_upgrade := 0.8
    base_migration_downgrade := 1.3
    tenure_decay_rate := 0.03
    engagement_offset := 0.15
    price_history_habituation := 0.05
    repeat_loss_curve_type := "moderate"
    migration_asymmetry_factor := 2.2
    time_lag_distribution := ⟨0.15, 0.25, 0.30, 0.20, 0.10⟩ }

def profile_deal_hunter : ArchetypeProfile :=
  { base_acquisition_elasticity := -3.5
    base_repeat_loss_elasticity := 1.6
    base_migration_upgrade := 0.4
    base_migration_downgrade := 2.0
    tenure_decay_rate := 0.01
    engagement_offset := 0.05
    price_history_habituation := 0.0
    repeat_loss_curve_type := "sharp_spike_plateau"
    migration_asymmetry_factor := 4.5
    time_lag_distribution := ⟨0.40, 0.35, 0.15, 0.07, 0.03⟩ }

def profile_content_driven : ArchetypeProfile :=
  { base_acquisition_elasticity := -1.2
    base_repeat_loss_elasticity := 0.7
    base_migration_upgrade := 1.1
    base_migration_downgrade := 0.9
    tenure_decay_rate := 0.05
    engagement_offset := 0.25
    price_history_habituation := 0.12
    repeat_loss_curve_type := "conditional_spike"
    migration_asymmetry_factor := 2.0
    time_lag_distribution := ⟨0.12, 0.22, 0.30, 0.25, 0.11⟩ }

def profile_tier_flexible : ArchetypeProfile :=
  { base_acquisition_elasticity := -1.6
    base_repeat_loss_elasticity := 0.85
    base_migration_upgrade := 0.9
    base_migration_downgrade := 2.7
    tenure_decay_rate := 0.04
    engagement_offset := 0.18
    price_history_habituation := 0.08
    repeat_loss_curve_type := "moderate"
    migration_asymmetry_factor := 3.8
    time_lag_distribution := ⟨0.18, 0.28, 0.28, 0.18, 0.08⟩ }

def profile_premium_seeker : ArchetypeProfile :=
  { base_acquisition_elasticity := -1.0
    base_repeat_loss_elasticity := 0.4
    base_migration_upgrade := 1.6
    base_migration_downgrade := 0.4
    tenure_decay_rate := 0.06
    engagement_offset := 0.3
    price_history_habituation := 0.15
    repeat_loss_curve_type := "gentle_slope"
    migration_asymmetry_factor := 0.8
    time_lag_distribution := ⟨0.08, 0.12, 0.18, 0.30, 0.32⟩ }

def profile_at_risk : ArchetypeProfile :=
  { base_acquisition_elasticity := -2.0
    base_repeat_loss_elasticity := 1.2
    base_migration_upgrade := 0.5
    base_migration_downgrade := 1.8
    tenure_decay_rate := -0.02
    engagement_offset := 0.1
    price_history_habituation := 0.03
    repeat_loss_curve_type := "accelerating"
    migration_asymmetry_factor := 3.2
    time_lag_distribution := ⟨0.25, 0.30, 0.25, 0.13, 0.07⟩ }

/-- The `weights` dictionary of `get_profile_weights`: one rational
weight per archetype, in the source's insertion order. -/
structure ProfileWeights where
  ultra_loyal : ℚ
  value_conscious : ℚ
  deal_hunter : ℚ
  content_driven : ℚ
  tier_flexible : ℚ
  premium_seeker : ℚ
  at_risk : ℚ

/-- Pointwise addition of weight contributions (the `+=` updates). -/
def ProfileWeights.add (a b : ProfileWeights) : ProfileWeights :=
  ⟨a.ultra_loyal + b.ultra_loyal, a.value_conscious + b.value_conscious,
    a.deal_hunter + b.deal_hunter, a.content_driven + b.content_driven,
    a.tier_flexible + b.tier_flexible, a.premium_seeker + b.premium_seeker,
    a.at_risk + b.at_risk⟩

/-- `sum(weights.values())`. -/
def ProfileWeights.total (w : ProfileWeights) : ℚ :=
  w.ultra_loyal + w.value_conscious + w.deal_hunter + w.content_driven +
    w.tier_flexible + w.premium_seeker + w.at_risk

/-- All weights are nonnegative. -/
def ProfileWeights.Nonneg (w : ProfileWeights) : Prop :=
  0 ≤ w.ultra_loyal ∧ 0 ≤ w.value_conscious ∧ 0 ≤ w.deal_hunter ∧
    0 ≤ w.content_driven ∧ 0 ≤ w.tier_flexible ∧ 0 ≤ w.premium_seeker ∧
    0 ≤ w.at_risk

instance (w : ProfileWeights) : Decidable w.Nonneg := by
  unfold ProfileWeights.Nonneg; infer_instance

/-- The all-zero `weights` dictionary that `get_profile_weights`
initializes. -/
def ProfileWeights.zero : ProfileWeights := ⟨0, 0, 0, 0, 0, 0, 0⟩

/-- ACQUISITION AXIS MAPPING branch of `get_profile_weights`
(field order: ultra_loyal, value_conscious, deal_hunter,
content_driven, tier_flexible, premium_seeker, at_risk). -/
def acquisition_axis_weights (acquisition_segment : String) : ProfileWeights :=
  if acquisition_segment = "habitual_streamers" then
    ⟨0.6, 0.2, 0, 0.2, 0, 0, 0⟩
  else if acquisition_segment = "content_anchored_viewers" then
    ⟨0.25, 0.15, 0, 0.6, 0, 0, 0⟩
  else if acquisition_segment = "at_risk_lapsers" then
    ⟨0, 0.2, 0, 0, 0.1, 0, 0.7⟩
  else if acquisition_segment = "promo_only_users" then
    ⟨0, 0.3, 0.7, 0, 0, 0, 0⟩
  else if acquisition_segment = "dormant_customers" then
    ⟨0, 0.15, 0.25, 0, 0, 0, 0.6⟩
  else ProfileWeights.zero

/-- ENGAGEMENT AXIS MAPPING branch of `get_profile_weights`. -/
def engagement_axis_weights (engagement_segment : String) : ProfileWeights :=
  if engagement_segment = "ad_value_seekers" then
    ⟨0, 0.5, 0.3, 0, 0.2, 0, 0⟩
  else if engagement_segment = "ad_tolerant_upgraders" then
    ⟨0, 0.3, 0, 0, 0.4, 0.3, 0⟩
  else if engagement_segment = "ad_free_loyalists" then
    ⟨0.4, 0, 0, 0, 0, 0.6, 0⟩
  else if engagement_segment = "price_triggered_downgraders" then
    ⟨0, 0, 0.3, 0, 0.5, 0, 0.2⟩
  else if engagement_segment = "tvod_inclined_buyers" then
    ⟨0, 0.2, 0, 0.5, 0, 0.3, 0⟩
  else ProfileWeights.zero

/-- MONETIZATION AXIS MAPPING branch of `get_profile_weights`. -/
def monetization_axis_weights (monetization_segment : String) : ProfileWeights :=
  if monetization_segment = "platform_bundled_acquirers" then
    ⟨0.4, 0.4, 0, 0, 0, 0.2, 0⟩
  else if monetization_segment = "tvod_to_svod_converters" then
    ⟨0.3, 0, 0, 0.5, 0, 0.2, 0⟩
  else if monetization_segment = "content_triggered_buyers" then
    ⟨0.15, 0.25, 0, 0.6, 0, 0, 0⟩
  else if monetization_segment = "deal_responsive_acquirers" then
    ⟨0, 0.3, 0.6, 0, 0.1, 0, 0⟩
  else if monetization_segment = "value_perception_buyers" then
    ⟨0, 0.6, 0.15, 0, 0.25, 0, 0⟩
  else ProfileWeights.zero

/-- The accumulated (pre-normalization) weights of
`get_profile_weights`: the three axis contributions summed per
archetype. -/
def accumulated_weights (acquisition_segment engagement_segment monetization_segment : String) :
    ProfileWeights :=
  ((acquisition_axis_weights acquisition_segment).add
      (engagement_axis_weights engagement_segment)).add
    (monetization_axis_weights monetization_segment)

/-- `get_profile_weights` (lines 164-249 of the source): accumulate the
per-axis contributions, then divide by the total when it is positive
(the source guards with `if total > 0:` and otherwise returns the
weights unnormalized). -/
def get_profile_weights
    (acquisition_segment engagement_segment monetization_segment : String) :
    ProfileWeights :=
  let w := accumulated_weights acquisition_segment engagement_segment monetization_segment
  let total := w.total
  if 0 < total then
    ⟨w.ultra_loyal / total, w.value_conscious / total, w.deal_hunter / total,
      w.content_driven / total, w.tier_flexible / total, w.premium_seeker / total,
      w.at_risk / total⟩
  else w

/-- Weighted sum of one scalar archetype parameter over the seven
archetypes, in the dictionary's iteration order — the repeated
`sum(... * weight for profile, weight in profile_weights.items())`
pattern of `calculate_segment_elasticity`. -/
def mixScalar (w : ProfileWeights) (f : ArchetypeProfile → ℚ) : ℚ :=
  f profile_ultra_loyal * w.ultra_loyal + f profile_value_conscious * w.value_conscious +
    f profile_deal_hunter * w.deal_hunter + f profile_content_driven * w.content_driven +
    f profile_tier_flexible * w.tier_flexible + f profile_premium_seeker * w.premium_seeker +
    f profile_at_risk * w.at_risk

/-- `profile_weights.items()` in insertion order, paired with the
archetype data. -/
def profile_items (w : ProfileWeights) : List (ArchetypeProfile × ℚ) :=
  [(profile_ultra_loyal, w.ultra_loyal), (profile_value_conscious, w.value_conscious),
    (profile_deal_hunter, w.deal_hunter), (profile_content_driven, w.content_driven),
    (profile_tier_flexible, w.tier_flexible), (profile_premium_seeker, w.premium_seeker),
    (profile_at_risk, w.at_risk)]

/-- `max(profile_weights.items(), key=lambda x: x[1])`: Python's `max`
keeps the first item on ties, so replacement happens only on a strictly
greater weight. -/
def dominant_profile (w : ProfileWeights) : ArchetypeProfile :=
  ((profile_items w).foldl
    (fun best x => if best.2 < x.2 then x else best)
    (profile_ultra_loyal, w.ultra_loyal)).1

/-- The `acquisition_axis` sub-record of `calculate_segment_elasticity`. -/
structure AcquisitionAxis where
  elasticity : ℚ
  tenure_decay_rate : ℚ
  engagement_offset : ℚ
  price_history_habituation : ℚ

/-- The `repeat_loss_axis` sub-record of `calculate_segment_elasticity`. -/
structure RepeatLossAxis where
  elasticity : ℚ
  repeat_loss_curve_type : String
  time_lag_distribution : TimeLagDistribution

/-- The `migration_axis` sub-record of `calculate_segment_elasticity`. -/
structure MigrationAxis where
  upgrade_willingness : ℚ
  downgrade_propensity : ℚ
  asymmetry_factor : ℚ

/-- Full result record of `calculate_segment_elasticity`. -/
structure SegmentElasticity where
  acquisition_axis : AcquisitionAxis
  repeat_loss_axis : RepeatLossAxis
  migration_axis : MigrationAxis
  profile_weights : ProfileWeights

/-- `calculate_segment_elasticity` (lines 255-344 of the source). The
bounded jitter `random.uniform(-0.05, 0.05)` is passed in explicitly as
`noise`. -/
def calculate_segment_elasticity (noise : ℚ) (profile_weights : ProfileWeights) :
    SegmentElasticity :=
  { acquisition_axis :=
      { elasticity := mixScalar profile_weights (·.base_acquisition_elasticity) * (1 + noise)
        tenure_decay_rate := mixScalar profile_weights (·.tenure_decay_rate)
        engagement_offset := mixScalar profile_weights (·.engagement_offset)
        price_history_habituation := mixScalar profile_weights (·.price_history_habituation) }
    repeat_loss_axis :=
      { elasticity := mixScalar profile_weights (·.base_repeat_loss_elasticity) * (1 + noise)
        repeat_loss_curve_type := (dominant_profile profile_weights).repeat_loss_curve_type
        time_lag_distribution :=
          ⟨mixScalar profile_weights (·.time_lag_distribution.t0_4_weeks),
            mixScalar profile_weights (·.time_lag_distribution.t4_8_weeks),
            mixScalar profile_weights (·.time_lag_distribution.t8_12_weeks),
            mixScalar profile_weights (·.time_lag_distribution.t12_16_weeks),
            mixScalar profile_weights (·.time_lag_distribution.t16_20_weeks)⟩ }
    migration_axis :=
      { upgrade_willingness := mixScalar profile_weights (·.base_migration_upgrade)
        downgrade_propensity := mixScalar profile_weights (·.base_migration_downgrade)
        asymmetry_factor := mixScalar profile_weights (·.migration_asymmetry_factor) }
    profile_weights := profile_weights }

/-! ### Predicates used to state the claims -/

/-- A probability entry lies in `[0, 1]`. -/
def entryOk (v : ℝ) : Prop := 0 ≤ v ∧ v ≤ 1

/-- A reported destination-probability row: sums to 1 within `1e-6`
and every entry lies in `[0, 1]`. -/
def rowOk (vals : List ℝ) : Prop :=
  |vals.sum - 1| ≤ 1 / 1000000 ∧ vals.Forall entryOk

/-- The values of a `from_ad_supported` row, in dictionary order. -/
def rowValsAS (r : RowFromAS) : List ℝ :=
  [r.stay, r.to_ad_free, r.to_bundle, r.to_basic, r.cancel]

/-- The values of a `from_ad_free` row. -/
def rowValsAF (r : RowFromAF) : List ℝ :=
  [r.stay, r.to_ad_supported, r.to_bundle, r.to_basic, r.cancel]

/-- The values of a `from_bundle` row. -/
def rowValsBundle (r : RowFromBundle) : List ℝ :=
  [r.stay, r.to_ad_free, r.to_ad_supported, r.to_basic, r.cancel]

/-- The values of a `from_basic` row. -/
def rowValsBasic (r : RowFromBasic) : List ℝ :=
  [r.stay, r.to_ad_supported, r.to_ad_free, r.to_bundle, r.cancel]

/-- Lift a row predicate to origin tiers that may be absent from the
active topology. -/
def originOk {α : Type} (vals : α → List ℝ) : Option α → Prop
  | none => True
  | some r => rowOk (vals r)

/-- Every archetype weight lies in `[0, 1]`. -/
def ProfileWeights.InUnit (w : ProfileWeights) : Prop :=
  (0 ≤ w.ultra_loyal ∧ w.ultra_loyal ≤ 1) ∧
    (0 ≤ w.value_conscious ∧ w.value_conscious ≤ 1) ∧
    (0 ≤ w.deal_hunter ∧ w.deal_hunter ≤ 1) ∧
    (0 ≤ w.content_driven ∧ w.content_driven ≤ 1) ∧
    (0 ≤ w.tier_flexible ∧ w.tier_flexible ≤ 1) ∧
    (0 ≤ w.premium_seeker ∧ w.premium_seeker ≤ 1) ∧
    (0 ≤ w.at_risk ∧ w.at_risk ≤ 1)

/-- Sum of the five buckets of a time-lag distribution. -/
def TimeLagDistribution.total (d : TimeLagDistribution) : ℚ :=
  d.t0_4_weeks + d.t4_8_weeks + d.t8_12_weeks + d.t12_16_weeks + d.t16_20_weeks

/-- All five buckets of a time-lag distribution are nonnegative. -/
def TimeLagDistribution.Nonneg (d : TimeLagDistribution) : Prop :=
  0 ≤ d.t0_4_weeks ∧ 0 ≤ d.t4_8_weeks ∧ 0 ≤ d.t8_12_weeks ∧
    0 ≤ d.t12_16_weeks ∧ 0 ≤ d.t16_20_weeks

/-! ### Helper lemmas about the softmax and the exponential -/

lemma smDenom_pos (x0 x1 x2 x3 : ℝ) : 0 < smDenom x0 x1 x2 x3 := by
  unfold smDenom
  positivity

lemma softmax4_sum (x0 x1 x2 x3 : ℝ) :
    (softmax4 x0 x1 x2 x3).p0 + (softmax4 x0 x1 x2 x3).p1 +
      (softmax4 x0 x1 x2 x3).p2 + (softmax4 x0 x1 x2 x3).p3 = 1 := by
  have h := smDenom_pos x0 x1 x2 x3
  unfold softmax4
  field_simp
  unfold smDenom
  ring

lemma softmax4_p0_nonneg (x0 x1 x2 x3 : ℝ) : 0 ≤ (softmax4 x0 x1 x2 x3).p0 := by
  unfold softmax4
  exact div_nonneg (Real.exp_pos _).le (smDenom_pos x0 x1 x2 x3).le

lemma softmax4_p1_nonneg (x0 x1 x2 x3 : ℝ) : 0 ≤ (softmax4 x0 x1 x2 x3).p1 := by
  unfold softmax4
  exact div_nonneg (Real.exp_pos _).le (smDenom_pos x0 x1 x2 x3).le

lemma softmax4_p2_nonneg (x0 x1 x2 x3 : ℝ) : 0 ≤ (softmax4 x0 x1 x2 x3).p2 := by
  unfold softmax4
  exact div_nonneg (Real.exp_pos _).le (smDenom_pos x0 x1 x2 x3).le

lemma softmax4_p3_nonneg (x0 x1 x2 x3 : ℝ) : 0 ≤ (softmax4 x0 x1 x2 x3).p3 := by
  unfold softmax4
  exact div_nonneg (Real.exp_pos _).le (smDenom_pos x0 x1 x2 x3).le

lemma exp_le_smDenom_0 (x0 x1 x2 x3 : ℝ) :
    Real.exp (x0 - smMax x0 x1 x2 x3) ≤ smDenom x0 x1 x2 x3 := by
  unfold smDenom
  nlinarith [(Real.exp_pos (x1 - smMax x0 x1 x2 x3)),
    (Real.exp_pos (x2 - smMax x0 x1 x2 x3)), (Real.exp_pos (x3 - smMax x0 x1 x2 x3))]

lemma softmax4_p0_le_one (x0 x1 x2 x3 : ℝ) : (softmax4 x0 x1 x2 x3).p0 ≤ 1 := by
  unfold softmax4
  rw [div_le_one (smDenom_pos x0 x1 x2 x3)]
  exact exp_le_smDenom_0 x0 x1 x2 x3

lemma softmax4_p1_le_one (x0 x1 x2 x3 : ℝ) : (softmax4 x0 x1 x2 x3).p1 ≤ 1 := by
  unfold softmax4
  rw [div_le_one (smDenom_pos x0 x1 x2 x3)]
  unfold smDenom
  nlinarith [(Real.exp_pos (x0 - smMax x0 x1 x2 x3)),
    (Real.exp_pos (x2 - smMax x0 x1 x2 x3)), (Real.exp_pos (x3 - smMax x0 x1 x2 x3))]

lemma softmax4_p2_le_one (x0 x1 x2 x3 : ℝ) : (softmax4 x0 x1 x2 x3).p2 ≤ 1 := by
  unfold softmax4
  rw [div_le_one (smDenom_pos x0 x1 x2 x3)]
  unfold smDenom
  nlinarith [(Real.exp_pos (x0 - smMax x0 x1 x2 x3)),
    (Real.exp_pos (x1 - smMax x0 x1 x2 x3)), (Real.exp_pos (x3 - smMax x0 x1 x2 x3))]

lemma softmax4_p3_le_one (x0 x1 x2 x3 : ℝ) : (softmax4 x0 x1 x2 x3).p3 ≤ 1 := by
  unfold softmax4
  rw [div_le_one (smDenom_pos x0 x1 x2 x3)]
  unfold smDenom
  nlinarith [(Real.exp_pos (x0 - smMax x0 x1 x2 x3)),
    (Real.exp_pos (x1 - smMax x0 x1 x2 x3)), (Real.exp_pos (x2 - smMax x0 x1 x2 x3))]

/-- The probability of any entry is at most `exp` of its utility gap to
the first entry: the max-shift cancels. -/
lemma softmax4_p2_le_exp (x0 x1 x2 x3 : ℝ) :
    (softmax4 x0 x1 x2 x3).p2 ≤ Real.exp (x2 - x0) := by
  unfold softmax4
  have h0 := Real.exp_pos (x0 - smMax x0 x1 x2 x3)
  calc Real.exp (x2 - smMax x0 x1 x2 x3) / smDenom x0 x1 x2 x3
      ≤ Real.exp (x2 - smMax x0 x1 x2 x3) / Real.exp (x0 - smMax x0 x1 x2 x3) := by
        apply div_le_div_of_nonneg_left (Real.exp_pos _).le h0 (exp_le_smDenom_0 x0 x1 x2 x3)
    _ = Real.exp (x2 - x0) := by
        rw [← Real.exp_sub]
        ring_nf

lemma softmax4_p1_le_exp (x0 x1 x2 x3 : ℝ) :
    (softmax4 x0 x1 x2 x3).p1 ≤ Real.exp (x1 - x0) := by
  unfold softmax4
  have h0 := Real.exp_pos (x0 - smMax x0 x1 x2 x3)
  calc Real.exp (x1 - smMax x0 x1 x2 x3) / smDenom x0 x1 x2 x3
      ≤ Real.exp (x1 - smMax x0 x1 x2 x3) / Real.exp (x0 - smMax x0 x1 x2 x3) := by
        apply div_le_div_of_nonneg_left (Real.exp_pos _).le h0 (exp_le_smDenom_0 x0 x1 x2 x3)
    _ = Real.exp (x1 - x0) := by
        rw [← Real.exp_sub]
        ring_nf

/-- Degree-4 Taylor lower bound for the exponential on nonnegative reals. -/
lemma exp_taylor_lower (x : ℝ) (hx : 0 ≤ x) :
    1 + x + x ^ 2 / 2 + x ^ 3 / 6 + x ^ 4 / 24 ≤ Real.exp x := by
  have h := Real.sum_le_exp_of_nonneg hx 5
  have hsum : ∑ i ∈ Finset.range 5, x ^ i / (Nat.factorial i) =
      1 + x + x ^ 2 / 2 + x ^ 3 / 6 + x ^ 4 / 24 := by
    simp [Finset.sum_range_succ, Nat.factorial]
  rwa [hsum] at h

/-- Degree-4 Taylor upper bound (with fifth-order remainder) for the
exponential on `[0, 1]`. -/
lemma exp_taylor_upper (x : ℝ) (h0 : 0 ≤ x) (h1 : x ≤ 1) :
    Real.exp x ≤ 1 + x + x ^ 2 / 2 + x ^ 3 / 6 + x ^ 4 / 24 + x ^ 5 / 100 := by
  have h := Real.exp_bound' h0 h1 (n := 5) (by norm_num)
  have hsum : ∑ i ∈ Finset.range 5, x ^ i / (Nat.factorial i) =
      1 + x + x ^ 2 / 2 + x ^ 3 / 6 + x ^ 4 / 24 := by
    simp [Finset.sum_range_succ, Nat.factorial]
  rw [hsum] at h
  calc Real.exp x ≤ (1 + x + x ^ 2 / 2 + x ^ 3 / 6 + x ^ 4 / 24) +
        x ^ 5 * (5 + 1) / (Nat.factorial 5 * 5) := h
    _ ≤ 1 + x + x ^ 2 / 2 + x ^ 3 / 6 + x ^ 4 / 24 + x ^ 5 / 100 := by
        have h6 : x ^ 5 * (5 + 1) / ((Nat.factorial 5 : ℝ) * 5) = x ^ 5 / 100 := by
          norm_num [Nat.factorial]
          ring
        rw [h6]

/-- A crude but sufficient lower bound on `exp 1`. -/
lemma exp_one_ge : (2.7083 : ℝ) ≤ Real.exp 1 := by
  have h := exp_taylor_lower 1 (by norm_num)
  norm_num at h
  linarith

lemma exp_neg_999_le : Real.exp (-999) ≤ 1 / 1000000 := by
  have h1 : Real.exp (-999) ≤ Real.exp (-14) := Real.exp_le_exp.mpr (by norm_num)
  have h2 : (1000000 : ℝ) ≤ Real.exp 14 := by
    have he : Real.exp 14 = Real.exp 1 ^ 14 := by
      rw [← Real.exp_nat_mul]
      norm_num
    have hp : (2.7083 : ℝ) ^ 14 ≤ Real.exp 1 ^ 14 :=
      pow_le_pow_left (by norm_num) exp_one_ge 14
    have : (1000000 : ℝ) ≤ (2.7083 : ℝ) ^ 14 := by norm_num
    linarith [he ▸ hp]
  have h3 : Real.exp (-14) = (Real.exp 14)⁻¹ := by
    rw [← Real.exp_neg]
  have h4 : Real.exp (-14) ≤ 1 / 1000000 := by
    rw [h3]
    rw [inv_le (by positivity) (by norm_num)]
    simpa using h2
  linarith

/-- The logistic sigmoid is monotone. -/
lemma logistic_mono {x y : ℝ} (h : x ≤ y) : logistic x ≤ logistic y := by
  unfold logistic
  have hexp : Real.exp (-y) ≤ Real.exp (-x) := Real.exp_le_exp.mpr (by linarith)
  have hy : (0 : ℝ) < 1 + Real.exp (-y) := by positivity
  apply one_div_le_one_div_of_le hy
  linarith

/-- Bounds on `exp 4.4685` via `exp 0.5585625 ^ 8`. -/
lemma exp_4_4685_bounds : (86.2 : ℝ) ≤ Real.exp 4.4685 ∧ Real.exp 4.4685 ≤ 88.2 := by
  have l := exp_taylor_lower 0.5585625 (by norm_num)
  have u := exp_taylor_upper 0.5585625 (by norm_num) (by norm_num)
  have he : Real.exp 4.4685 = Real.exp 0.5585625 ^ 8 := by
    rw [← Real.exp_nat_mul]
    norm_num
  have hl : (1.7476 : ℝ) ≤ Real.exp 0.5585625 := by
    norm_num at l
    linarith
  have hu : Real.exp 0.5585625 ≤ 1.7483 := by
    norm_num at u
    linarith
  constructor
  · rw [he]
    calc (86.2 : ℝ) ≤ 1.7476 ^ 8 := by norm_num
      _ ≤ Real.exp 0.5585625 ^ 8 := pow_le_pow_left₀ (by norm_num) hl 8
  · rw [he]
    calc Real.exp 0.5585625 ^ 8 ≤ (1.7483 : ℝ) ^ 8 :=
          pow_le_pow_left₀ (Real.exp_pos _).le hu 8
      _ ≤ 88.2 := by norm_num

/-- Bounds on `exp (-1.62)` via `exp 0.81 ^ 2`. -/
lemma exp_neg_1_62_bounds :
    (0.1978 : ℝ) ≤ Real.exp (-1.62) ∧ Real.exp (-1.62) ≤ 0.1986 := by
  have l := exp_taylor_lower 0.81 (by norm_num)
  have u := exp_taylor_upper 0.81 (by norm_num) (by norm_num)
  have he : Real.exp 1.62 = Real.exp 0.81 ^ 2 := by
    rw [← Real.exp_nat_mul]
    norm_num
  have hl : (5.0377 : ℝ) ≤ Real.exp 1.62 := by
    rw [he]
    have h81 : (2.2445 : ℝ) ≤ Real.exp 0.81 := by
      norm_num at l
      linarith
    nlinarith [Real.exp_pos 0.81]
  have hu : Real.exp 1.62 ≤ 5.054 := by
    rw [he]
    have h81 : Real.exp 0.81 ≤ 2.2481 := by
      norm_num at u
      linarith
    nlinarith [Real.exp_pos 0.81]
  have hneg : Real.exp (-1.62) = 1 / Real.exp 1.62 := by
    rw [Real.exp_neg, inv_eq_one_div]
  have hpos : (0 : ℝ) < Real.exp 1.62 := Real.exp_pos _
  constructor
  · rw [hneg]
    calc (0.1978 : ℝ) ≤ 1 / 5.054 := by norm_num
      _ ≤ 1 / Real.exp 1.62 := one_div_le_one_div_of_le hpos hu
  · rw [hneg]
    calc 1 / Real.exp 1.62 ≤ 1 / 5.0377 := one_div_le_one_div_of_le (by norm_num) hl
      _ ≤ 0.1986 := by norm_num

/-- Bounds on `exp (-2.59)` via `exp 0.6475 ^ 4`. -/
lemma exp_neg_2_59_bounds :
    (0.0749 : ℝ) ≤ Real.exp (-2.59) ∧ Real.exp (-2.59) ≤ 0.0753 := by
  have l := exp_taylor_lower 0.6475 (by norm_num)
  have u := exp_taylor_upper 0.6475 (by norm_num) (by norm_num)
  have he : Real.exp 2.59 = Real.exp 0.6475 ^ 4 := by
    rw [← Real.exp_nat_mul]
    norm_num
  have hl : (13.297 : ℝ) ≤ Real.exp 2.59 := by
    rw [he]
    have h64 : (1.9096 : ℝ) ≤ Real.exp 0.6475 := by
      norm_num at l
      linarith
    calc (13.297 : ℝ) ≤ 1.9096 ^ 4 := by norm_num
      _ ≤ Real.exp 0.6475 ^ 4 := pow_le_pow_left₀ (by norm_num) h64 4
  have hu : Real.exp 2.59 ≤ 13.334 := by
    rw [he]
    have h64 : Real.exp 0.6475 ≤ 1.9109 := by
      norm_num at u
      linarith
    calc Real.exp 0.6475 ^ 4 ≤ (1.9109 : ℝ) ^ 4 :=
          pow_le_pow_left₀ (Real.exp_pos _).le h64 4
      _ ≤ 13.334 := by norm_num
  have hneg : Real.exp (-2.59) = 1 / Real.exp 2.59 := by
    rw [Real.exp_neg, inv_eq_one_div]
  have hpos : (0 : ℝ) < Real.exp 2.59 := Real.exp_pos _
  constructor
  · rw [hneg]
    calc (0.0749 : ℝ) ≤ 1 / 13.334 := by norm_num
      _ ≤ 1 / Real.exp 2.59 := one_div_le_one_div_of_le hpos hu
  · rw [hneg]
    calc 1 / Real.exp 2.59 ≤ 1 / 13.297 := one_div_le_one_div_of_le (by norm_num) hl
      _ ≤ 0.0753 := by norm_num

/-- Upper bound on `exp 2.336` via `exp 0.584 ^ 4`; in particular it is
far below 19. -/
lemma exp_2_336_lt_19 : Real.exp 2.336 < 19 := by
  have u := exp_taylor_upper 0.584 (by norm_num) (by norm_num)
  have he : Real.exp 2.336 = Real.exp 0.584 ^ 4 := by
    rw [← Real.exp_nat_mul]
    norm_num
  have h58 : Real.exp 0.584 ≤ 1.7933 := by
    norm_num at u
    linarith
  have : Real.exp 0.584 ^ 4 ≤ (1.7933 : ℝ) ^ 4 :=
    pow_le_pow_left₀ (Real.exp_pos _).le h58 4
  have hlt : (1.7933 : ℝ) ^ 4 < 19 := by norm_num
  rw [he]
  linarith

/-- A small bound reused for the unreachable-destination utility. -/
lemma exp_neg_999_le_small : Real.exp (-999 : ℝ) ≤ 0.001 := by
  have h := exp_neg_999_le
  norm_num at h ⊢
  linarith

/-- Assemble `rowOk` for an explicit five-entry row. -/
lemma rowOk_mk (a b c d e : ℝ)
    (hsum : |a + b + c + d + e - 1| ≤ 1 / 1000000)
    (ha : entryOk a) (hb : entryOk b) (hc : entryOk c)
    (hd : entryOk d) (he : entryOk e) :
    rowOk [a, b, c, d, e] := by
  constructor
  · have h2 : ([a, b, c, d, e] : List ℝ).sum = a + b + c + d + e := by
      simp
      ring
    rw [h2]
    exact hsum
  · show entryOk a ∧ entryOk b ∧ entryOk c ∧ entryOk d ∧ entryOk e
    exact ⟨ha, hb, hc, hd, he⟩

lemma entryOk_zero : entryOk 0 := by
  constructor <;> norm_num

lemma softmax4_entryOk_p0 (x0 x1 x2 x3 : ℝ) : entryOk (softmax4 x0 x1 x2 x3).p0 :=
  ⟨softmax4_p0_nonneg x0 x1 x2 x3, softmax4_p0_le_one x0 x1 x2 x3⟩

lemma softmax4_entryOk_p1 (x0 x1 x2 x3 : ℝ) : entryOk (softmax4 x0 x1 x2 x3).p1 :=
  ⟨softmax4_p1_nonneg x0 x1 x2 x3, softmax4_p1_le_one x0 x1 x2 x3⟩

lemma softmax4_entryOk_p2 (x0 x1 x2 x3 : ℝ) : entryOk (softmax4 x0 x1 x2 x3).p2 :=
  ⟨softmax4_p2_nonneg x0 x1 x2 x3, softmax4_p2_le_one x0 x1 x2 x3⟩

lemma softmax4_entryOk_p3 (x0 x1 x2 x3 : ℝ) : entryOk (softmax4 x0 x1 x2 x3).p3 :=
  ⟨softmax4_p3_nonneg x0 x1 x2 x3, softmax4_p3_le_one x0 x1 x2 x3⟩

/-- Any row reporting all four softmax entries plus a literal `0.0`
(pattern `[p0, p1, p2, 0, p3]`) is a valid probability row. -/
lemma rowOk_v1 (x1 x2 x3 : ℝ) :
    rowOk [(softmax4 0 x1 x2 x3).p0, (softmax4 0 x1 x2 x3).p1,
      (softmax4 0 x1 x2 x3).p2, 0, (softmax4 0 x1 x2 x3).p3] := by
  have hs := softmax4_sum 0 x1 x2 x3
  refine rowOk_mk _ _ _ _ _ ?_ (softmax4_entryOk_p0 0 x1 x2 x3)
    (softmax4_entryOk_p1 0 x1 x2 x3) (softmax4_entryOk_p2 0 x1 x2 x3)
    entryOk_zero (softmax4_entryOk_p3 0 x1 x2 x3)
  rw [abs_le]
  constructor <;> linarith

/-- Pattern `[p0, p2, p1, 0, p3]`. -/
lemma rowOk_v2 (x1 x2 x3 : ℝ) :
    rowOk [(softmax4 0 x1 x2 x3).p0, (softmax4 0 x1 x2 x3).p2,
      (softmax4 0 x1 x2 x3).p1, 0, (softmax4 0 x1 x2 x3).p3] := by
  have hs := softmax4_sum 0 x1 x2 x3
  refine rowOk_mk _ _ _ _ _ ?_ (softmax4_entryOk_p0 0 x1 x2 x3)
    (softmax4_entryOk_p2 0 x1 x2 x3) (softmax4_entryOk_p1 0 x1 x2 x3)
    entryOk_zero (softmax4_entryOk_p3 0 x1 x2 x3)
  rw [abs_le]
  constructor <;> linarith

/-- Pattern `[p0, p1, 0, p2, p3]`. -/
lemma rowOk_v3 (x1 x2 x3 : ℝ) :
    rowOk [(softmax4 0 x1 x2 x3).p0, (softmax4 0 x1 x2 x3).p1, 0,
      (softmax4 0 x1 x2 x3).p2, (softmax4 0 x1 x2 x3).p3] := by
  have hs := softmax4_sum 0 x1 x2 x3
  refine rowOk_mk _ _ _ _ _ ?_ (softmax4_entryOk_p0 0 x1 x2 x3)
    (softmax4_entryOk_p1 0 x1 x2 x3) entryOk_zero
    (softmax4_entryOk_p2 0 x1 x2 x3) (softmax4_entryOk_p3 0 x1 x2 x3)
  rw [abs_le]
  constructor <;> linarith

/-- A 2-tier `from_ad_supported` row: the dropped `-999` entry has
probability at most `exp (-999) ≤ 1e-6`, so the reported five values
still sum to 1 within tolerance. -/
lemma rowOk_v4 (x1 x3 : ℝ) :
    rowOk [(softmax4 0 x1 (-999) x3).p0, (softmax4 0 x1 (-999) x3).p1, 0, 0,
      (softmax4 0 x1 (-999) x3).p3] := by
  have hs := softmax4_sum 0 x1 (-999) x3
  have hdrop : (softmax4 0 x1 (-999) x3).p2 ≤ 1 / 1000000 := by
    have h := softmax4_p2_le_exp 0 x1 (-999) x3
    have h2 : ((-999 : ℝ) - 0) = -999 := by norm_num
    rw [h2] at h
    exact h.trans exp_neg_999_le
  have hnn := softmax4_p2_nonneg 0 x1 (-999) x3
  refine rowOk_mk _ _ _ _ _ ?_ (softmax4_entryOk_p0 0 x1 (-999) x3)
    (softmax4_entryOk_p1 0 x1 (-999) x3) entryOk_zero entryOk_zero
    (softmax4_entryOk_p3 0 x1 (-999) x3)
  rw [abs_le]
  constructor <;> linarith

/-- A 2-tier `from_ad_free` row (the `-999` entry sits in slot 1). -/
lemma rowOk_v5 (x2 x3 : ℝ) :
    rowOk [(softmax4 0 (-999) x2 x3).p0, (softmax4 0 (-999) x2 x3).p2, 0, 0,
      (softmax4 0 (-999) x2 x3).p3] := by
  have hs := softmax4_sum 0 (-999) x2 x3
  have hdrop : (softmax4 0 (-999) x2 x3).p1 ≤ 1 / 1000000 := by
    have h := softmax4_p1_le_exp 0 (-999) x2 x3
    have h2 : ((-999 : ℝ) - 0) = -999 := by norm_num
    rw [h2] at h
    exact h.trans exp_neg_999_le
  have hnn := softmax4_p1_nonneg 0 (-999) x2 x3
  refine rowOk_mk _ _ _ _ _ ?_ (softmax4_entryOk_p0 0 (-999) x2 x3)
    (softmax4_entryOk_p2 0 (-999) x2 x3) entryOk_zero entryOk_zero
    (softmax4_entryOk_p3 0 (-999) x2 x3)
  rw [abs_le]
  constructor <;> linarith

lemma predict_2tier_rows_ok (s : MigScenario) :
    originOk rowValsAS (predict_2tier s).from_ad_supported ∧
    originOk rowValsAF (predict_2tier s).from_ad_free ∧
    originOk rowValsBundle (predict_2tier s).from_bundle ∧
    originOk rowValsBasic (predict_2tier s).from_basic := by
  refine ⟨?_, ?_, trivial, trivial⟩
  · simp only [predict_2tier, originOk, rowValsAS]
    exact rowOk_v4 _ _
  · simp only [predict_2tier, originOk, rowValsAF]
    exact rowOk_v5 _ _

lemma predict_3tier_bundle_rows_ok (s : MigScenario) :
    originOk rowValsAS (predict_3tier_bundle s).from_ad_supported ∧
    originOk rowValsAF (predict_3tier_bundle s).from_ad_free ∧
    originOk rowValsBundle (predict_3tier_bundle s).from_bundle ∧
    originOk rowValsBasic (predict_3tier_bundle s).from_basic := by
  refine ⟨?_, ?_, ?_, trivial⟩
  · simp only [predict_3tier_bundle, originOk, rowValsAS]
    exact rowOk_v1 _ _ _
  · simp only [predict_3tier_bundle, originOk, rowValsAF]
    exact rowOk_v2 _ _ _
  · simp only [predict_3tier_bundle, originOk, rowValsBundle]
    exact rowOk_v1 _ _ _

lemma predict_3tier_basic_rows_ok (s : MigScenario) :
    originOk rowValsAS (predict_3tier_basic s).from_ad_supported ∧
    originOk rowValsAF (predict_3tier_basic s).from_ad_free ∧
    originOk rowValsBundle (predict_3tier_basic s).from_bundle ∧
    originOk rowValsBasic (predict_3tier_basic s).from_basic := by
  refine ⟨?_, ?_, trivial, ?_⟩
  · simp only [predict_3tier_basic, originOk, rowValsAS]
    exact rowOk_v3 _ _ _
  · simp only [predict_3tier_basic, originOk, rowValsAF]
    exact rowOk_v3 _ _ _
  · simp only [predict_3tier_basic, originOk, rowValsBasic]
    exact rowOk_v1 _ _ _

/-- C1: for every scenario and for every origin tier of the topology
selected for it, the destination-probability mapping returned by
`predict_migration_matrix` (the values for stay, each `to_*`
destination, and cancel, including the `0.0` entries filled in for
destinations not in the active topology) sums to 1.0 within `1e-6`,
and every entry lies in `[0, 1]`. -/
theorem migration_matrix_rows_are_simplices (s : MigScenario) :
    originOk rowValsAS (predict_migration_matrix s).from_ad_supported ∧
    originOk rowValsAF (predict_migration_matrix s).from_ad_free ∧
    originOk rowValsBundle (predict_migration_matrix s).from_bundle ∧
    originOk rowValsBasic (predict_migration_matrix s).from_basic := by
  unfold predict_migration_matrix
  split
  · exact predict_3tier_bundle_rows_ok s
  · split
    · exact predict_3tier_basic_rows_ok s
    · exact predict_2tier_rows_ok s

/-- C2: tier-configuration detection is a deterministic, total function
of the scenario: it returns `3-tier-bundle` iff the (lower-cased,
defaulted) tier label is `"bundle"` or the detection price is in the
closed interval `[13.99, 15.99]`; otherwise `3-tier-basic` iff the label
is `"basic"` or the price is in `[1.99, 3.99]`; otherwise `2-tier`.
In particular `price = 13.99` and `price = 15.99` both select
`3-tier-bundle`, while `price = 13.98` with a non-bundle, non-basic
tier label selects `2-tier`. -/
theorem detect_tier_config_spec :
    (∀ s : MigScenario,
      detect_tier_config s = "3-tier-bundle" ↔
        (scenario_tier_label s = "bundle" ∨
          (13.99 ≤ scenario_detect_price s ∧ scenario_detect_price s ≤ 15.99))) ∧
    (∀ s : MigScenario,
      detect_tier_config s = "3-tier-basic" ↔
        (¬(scenario_tier_label s = "bundle" ∨
            (13.99 ≤ scenario_detect_price s ∧ scenario_detect_price s ≤ 15.99)) ∧
          (scenario_tier_label s = "basic" ∨
            (1.99 ≤ scenario_detect_price s ∧ scenario_detect_price s ≤ 3.99)))) ∧
    (∀ s : MigScenario,
      detect_tier_config s = "2-tier" ↔
        (¬(scenario_tier_label s = "bundle" ∨
            (13.99 ≤ scenario_detect_price s ∧ scenario_detect_price s ≤ 15.99)) ∧
          ¬(scenario_tier_label s = "basic" ∨
            (1.99 ≤ scenario_detect_price s ∧ scenario_detect_price s ≤ 3.99)))) ∧
    detect_tier_config { tier := some "ad_supported", new_price := some 13.99 } = "3-tier-bundle" ∧
    detect_tier_config { tier := some "ad_supported", new_price := some 15.99 } = "3-tier-bundle" ∧
    detect_tier_config { tier := some "ad_supported", new_price := some 13.98 } = "2-tier" := by
  refine ⟨?_, ?_, ?_, ?_, ?_, ?_⟩
  · intro s
    simp only [detect_tier_config]
    split_ifs with h1 h2 <;> simp_all
  · intro s
    simp only [detect_tier_config]
    split_ifs with h1 h2 <;> simp_all
  · intro s
    simp only [detect_tier_config]
    split_ifs with h1 h2 <;> simp_all
  · norm_num [detect_tier_config, scenario_tier_label, scenario_detect_price,
      show str_lower "ad_supported" = "ad_supported" from by decide]
  · norm_num [detect_tier_config, scenario_tier_label, scenario_detect_price,
      show str_lower "ad_supported" = "ad_supported" from by decide]
  · norm_num [detect_tier_config, scenario_tier_label, scenario_detect_price,
      show str_lower "ad_supported" = "ad_supported" from by decide]
    simp

/-! ### ProfileMixer lemmas -/

lemma ProfileWeights.ext' {a b : ProfileWeights}
    (h1 : a.ultra_loyal = b.ultra_loyal) (h2 : a.value_conscious = b.value_conscious)
    (h3 : a.deal_hunter = b.deal_hunter) (h4 : a.content_driven = b.content_driven)
    (h5 : a.tier_flexible = b.tier_flexible) (h6 : a.premium_seeker = b.premium_seeker)
    (h7 : a.at_risk = b.at_risk) : a = b := by
  cases a
  cases b
  simp_all

lemma acquisition_axis_weights_nonneg (a : String) :
    (acquisition_axis_weights a).Nonneg := by
  unfold acquisition_axis_weights
  split_ifs <;> norm_num [ProfileWeights.Nonneg, ProfileWeights.zero]

lemma engagement_axis_weights_nonneg (e : String) :
    (engagement_axis_weights e).Nonneg := by
  unfold engagement_axis_weights
  split_ifs <;> norm_num [ProfileWeights.Nonneg, ProfileWeights.zero]

lemma monetization_axis_weights_nonneg (m : String) :
    (monetization_axis_weights m).Nonneg := by
  unfold monetization_axis_weights
  split_ifs <;> norm_num [ProfileWeights.Nonneg, ProfileWeights.zero]

lemma ProfileWeights.add_nonneg {a b : ProfileWeights}
    (ha : a.Nonneg) (hb : b.Nonneg) : (a.add b).Nonneg := by
  obtain ⟨a1, a2, a3, a4, a5, a6, a7⟩ := ha
  obtain ⟨b1, b2, b3, b4, b5, b6, b7⟩ := hb
  refine ⟨?_, ?_, ?_, ?_, ?_, ?_, ?_⟩ <;>
    simp only [ProfileWeights.add] <;> linarith

lemma accumulated_weights_nonneg (a e m : String) :
    (accumulated_weights a e m).Nonneg :=
  ProfileWeights.add_nonneg
    (ProfileWeights.add_nonneg (acquisition_axis_weights_nonneg a)
      (engagement_axis_weights_nonneg e))
    (monetization_axis_weights_nonneg m)

/-- C3: for every combination of the three segment-axis values in which
at least one axis value contributes positive weight (equivalently, the
accumulated pre-normalization total is positive), the `ProfileWeights`
mapping returned by `get_profile_weights` has every weight in `[0, 1]`
and the weights sum to 1.0 within `1e-9` (in fact exactly). -/
theorem get_profile_weights_is_distribution
    (acquisition_segment engagement_segment monetization_segment : String)
    (h : 0 < (accumulated_weights acquisition_segment engagement_segment
        monetization_segment).total) :
    (get_profile_weights acquisition_segment engagement_segment
        monetization_segment).InUnit ∧
      |(get_profile_weights acquisition_segment engagement_segment
          monetization_segment).total - 1| ≤ 1 / 1000000000 := by
  obtain ⟨n1, n2, n3, n4, n5, n6, n7⟩ :=
    accumulated_weights_nonneg acquisition_segment engagement_segment monetization_segment
  set w := accumulated_weights acquisition_segment engagement_segment monetization_segment
    with hw
  have htot : w.total =
      w.ultra_loyal + w.value_conscious + w.deal_hunter + w.content_driven +
        w.tier_flexible + w.premium_seeker + w.at_risk := rfl
  simp only [get_profile_weights, ← hw, if_pos h]
  constructor
  · refine ⟨⟨?_, ?_⟩, ⟨?_, ?_⟩, ⟨?_, ?_⟩, ⟨?_, ?_⟩, ⟨?_, ?_⟩, ⟨?_, ?_⟩, ⟨?_, ?_⟩⟩ <;>
      first
        | exact div_nonneg (by linarith) h.le
        | · rw [div_le_one h]
            linarith
  · have hsum : (ProfileWeights.mk (w.ultra_loyal / w.total) (w.value_conscious / w.total)
        (w.deal_hunter / w.total) (w.content_driven / w.total) (w.tier_flexible / w.total)
        (w.premium_seeker / w.total) (w.at_risk / w.total)).total = 1 := by
      show w.ultra_loyal / w.total + w.value_conscious / w.total + w.deal_hunter / w.total +
          w.content_driven / w.total + w.tier_flexible / w.total +
          w.premium_seeker / w.total + w.at_risk / w.total = 1
      rw [div_add_div_same, div_add_div_same, div_add_div_same, div_add_div_same,
        div_add_div_same, div_add_div_same, ← htot]
      exact div_self (ne_of_gt h)
    rw [hsum]
    norm_num

/-- Witness for C3 at a concrete axis combination. -/
theorem get_profile_weights_is_distribution_witness :
    0 < (accumulated_weights "habitual_streamers" "ad_value_seekers"
        "platform_bundled_acquirers").total ∧
      ((get_profile_weights "habitual_streamers" "ad_value_seekers"
          "platform_bundled_acquirers").InUnit ∧
        |(get_profile_weights "habitual_streamers" "ad_value_seekers"
            "platform_bundled_acquirers").total - 1| ≤ 1 / 1000000000) :=
  ⟨by norm_num [accumulated_weights, acquisition_axis_weights, engagement_axis_weights,
      monetization_axis_weights, ProfileWeights.add, ProfileWeights.total],
    get_profile_weights_is_distribution _ _ _
      (by norm_num [accumulated_weights, acquisition_axis_weights, engagement_axis_weights,
        monetization_axis_weights, ProfileWeights.add, ProfileWeights.total])⟩

/-- C4 counterexample: for an axis combination that maps to no
archetype, `get_profile_weights` does not reject the input — it returns
the all-zero weights dictionary (whose weights sum to 0, not 1), because
the source guards the normalization with `if total > 0:` and otherwise
falls through to `return weights`. -/
theorem get_profile_weights_zero_total_returns_result :
    get_profile_weights "unmapped_acq" "unmapped_eng" "unmapped_mon" =
        ProfileWeights.zero ∧
      (get_profile_weights "unmapped_acq" "unmapped_eng" "unmapped_mon").total = 0 := by
  constructor <;>
  · simp only [get_profile_weights, accumulated_weights, acquisition_axis_weights,
      engagement_axis_weights, monetization_axis_weights, ProfileWeights.add,
      ProfileWeights.total, ProfileWeights.zero, String.reduceEq, reduceIte]
    norm_num

/-- C4 (amended): when the accumulated weight total is zero (no axis
value maps to any archetype), `get_profile_weights` skips normalization
and returns the all-zero weights mapping; it does not fail and does not
divide by zero. -/
theorem get_profile_weights_zero_total
    (acquisition_segment engagement_segment monetization_segment : String)
    (h : (accumulated_weights acquisition_segment engagement_segment
        monetization_segment).total = 0) :
    get_profile_weights acquisition_segment engagement_segment monetization_segment =
      ProfileWeights.zero := by
  obtain ⟨n1, n2, n3, n4, n5, n6, n7⟩ :=
    accumulated_weights_nonneg acquisition_segment engagement_segment monetization_segment
  set w := accumulated_weights acquisition_segment engagement_segment monetization_segment
    with hw
  have htot : w.ultra_loyal + w.value_conscious + w.deal_hunter + w.content_driven +
      w.tier_flexible + w.premium_seeker + w.at_risk = 0 := h
  simp only [get_profile_weights, ← hw, h, lt_irrefl, if_false]
  refine ProfileWeights.ext' ?_ ?_ ?_ ?_ ?_ ?_ ?_ <;>
    simp only [ProfileWeights.zero] <;> linarith

/-- Witness for the amended C4 at a concrete unmapped combination. -/
theorem get_profile_weights_zero_total_witness :
    (accumulated_weights "x" "y" "z").total = 0 ∧
      get_profile_weights "x" "y" "z" = ProfileWeights.zero :=
  ⟨by
    simp only [accumulated_weights, acquisition_axis_weights, engagement_axis_weights,
      monetization_axis_weights, ProfileWeights.add, ProfileWeights.total,
      ProfileWeights.zero, String.reduceEq, reduceIte]
    norm_num,
    get_profile_weights_zero_total _ _ _ (by
      simp only [accumulated_weights, acquisition_axis_weights, engagement_axis_weights,
        monetization_axis_weights, ProfileWeights.add, ProfileWeights.total,
        ProfileWeights.zero, String.reduceEq, reduceIte]
      norm_num)⟩

/-! ### Missing-field defaults (C5) -/

/-- C5 counterexample: the claim that every prediction entry point
treats a segment missing `elasticity` as `elasticity = -1.8` is false:
`predict_repeat_loss_by_segment` uses `segment.get('elasticity', -2.0)`,
so a segment with the key absent produces a different result (segment
multiplier 1.0 instead of 0.97) than one with `elasticity = -1.8`,
already at scenario `{price_change_pct: 16, baseline_repeat_loss: 0.05}`. -/
theorem repeat_loss_by_segment_default_is_not_minus_1_8 :
    predict_repeat_loss_by_segment ⟨some 16, some 0.05⟩ [⟨"s", 100, none⟩] ≠
      predict_repeat_loss_by_segment ⟨some 16, some 0.05⟩ [⟨"s", 100, some (-1.8)⟩] := by
  intro hEq
  have h2 := congrArg
    (fun l => (l.headD ⟨"", 0, 0, 0, 0, 0⟩).repeat_loss_8_12_weeks) hEq
  simp only [predict_repeat_loss_by_segment, predict_repeat_loss_by_horizon,
    horizon_entry, horizon_log_odds, REPEAT_LOSS_COEFFICIENTS, List.map_cons,
    List.map_nil, List.headD_cons] at h2
  norm_num [min_def, abs_of_nonneg] at h2
  have hlog : logistic (-(292 / 125 : ℝ)) > 0.05 := by
    unfold logistic
    have harg : (-(-(292 / 125 : ℝ))) = 2.336 := by norm_num
    rw [harg]
    have hpos : (0 : ℝ) < 1 + Real.exp 2.336 := by positivity
    have h19 : (1 : ℝ) + Real.exp 2.336 < 20 := by
      linarith [exp_2_336_lt_19]
    have := one_div_lt_one_div_of_lt hpos h19
    norm_num at this ⊢
    linarith
  nlinarith [hlog, h2]

/-- C5 (amended): the documented scenario defaults hold —
`predict_acquisition` treats a missing `new_price` as `8.99` and a
missing `segment_elasticity` as `-1.8`, and the repeat-loss model
treats a missing `baseline_repeat_loss` as `0.05` — but
`predict_repeat_loss_by_segment` treats a segment missing `elasticity`
as `-2.0` (not `-1.8`), and `predict_acquisition_by_segment` fails
(KeyError, modelled as `none`) on a segment missing `elasticity`
rather than defaulting. -/
theorem optional_field_defaults :
    (∀ promo elast, predict_acquisition ⟨none, promo, elast⟩ =
        predict_acquisition ⟨some 8.99, promo, elast⟩) ∧
    (∀ price promo, predict_acquisition ⟨price, promo, none⟩ =
        predict_acquisition ⟨price, promo, some (-1.8)⟩) ∧
    (∀ p, predict_repeat_loss_by_horizon ⟨p, none⟩ =
        predict_repeat_loss_by_horizon ⟨p, some 0.05⟩) ∧
    (∀ sc nm sz, predict_repeat_loss_by_segment sc [⟨nm, sz, none⟩] =
        predict_repeat_loss_by_segment sc [⟨nm, sz, some (-2.0)⟩]) ∧
    (∀ sc nm sz, predict_acquisition_by_segment sc [⟨nm, sz, none⟩] = none) :=
  ⟨fun _ _ => rfl, fun _ _ => rfl, fun _ => rfl, fun _ _ _ => rfl, fun _ _ _ => rfl⟩

/-- C6: for every scenario with positive `price_change_pct`, the
repeat-loss uplift at the "8-12 Weeks" horizon is at least the uplift
at the "0-4 Weeks" horizon (the same baseline is subtracted from both
and the peak-horizon interaction coefficient is the largest). -/
theorem repeat_loss_uplift_peak_horizon (p : ℚ) (hp : 0 < p) (b : Option ℚ) :
    (predict_repeat_loss_by_horizon ⟨some p, b⟩).h8_12.repeat_loss_uplift ≥
      (predict_repeat_loss_by_horizon ⟨some p, b⟩).h0_4.repeat_loss_uplift := by
  simp only [predict_repeat_loss_by_horizon, horizon_entry]
  apply sub_le_sub_right
  apply logistic_mono
  rw [Rat.cast_le]
  unfold horizon_log_odds
  simp only [Option.getD, REPEAT_LOSS_COEFFICIENTS]
  nlinarith [hp]

/-- Witness for C6 at `price_change_pct = 16`. -/
theorem repeat_loss_uplift_peak_horizon_witness :
    (0 : ℚ) < 16 ∧
      (predict_repeat_loss_by_horizon ⟨some 16, some 0.05⟩).h8_12.repeat_loss_uplift ≥
        (predict_repeat_loss_by_horizon ⟨some 16, some 0.05⟩).h0_4.repeat_loss_uplift :=
  ⟨by norm_num, repeat_loss_uplift_peak_horizon 16 (by norm_num) (some 0.05)⟩

/-- C10: for every input scenario `predict_acquisition` returns a
strictly positive `predicted_adds` (the exponential of a finite linear
predictor), so the `predicted_adds = 0` confidence fallback is
unreachable — the confidence always equals `se / adds * 100` and is
positive — and the interval is well-formed:
`0 ≤ ci_lower ≤ predicted_adds ≤ ci_upper`. -/
theorem predict_acquisition_safe (s : AcqScenario) :
    0 < (predict_acquisition s).predicted_adds ∧
      0 ≤ (predict_acquisition s).ci_lower ∧
      (predict_acquisition s).ci_lower ≤ (predict_acquisition s).predicted_adds ∧
      (predict_acquisition s).predicted_adds ≤ (predict_acquisition s).ci_upper ∧
      (predict_acquisition s).confidence =
        Real.sqrt (predict_acquisition s).predicted_adds /
          (predict_acquisition s).predicted_adds * 100 ∧
      0 < (predict_acquisition s).confidence := by
  simp only [predict_acquisition]
  have hpos : (0 : ℝ) < Real.exp ((acquisition_log_adds s : ℚ) : ℝ) := Real.exp_pos _
  have hsq : (0 : ℝ) ≤ Real.sqrt (Real.exp ((acquisition_log_adds s : ℚ) : ℝ)) :=
    Real.sqrt_nonneg _
  have hsqpos : (0 : ℝ) < Real.sqrt (Real.exp ((acquisition_log_adds s : ℚ) : ℝ)) :=
    Real.sqrt_pos.mpr hpos
  refine ⟨hpos, le_max_left _ _, ?_, ?_, ?_, ?_⟩
  · exact max_le hpos.le (by nlinarith)
  · nlinarith
  · rw [if_pos hpos]
  · rw [if_pos hpos]
    positivity

/-- C9: for every `ProfileWeights` mapping with nonnegative weights
summing to 1, the blended 5-bucket time-lag distribution produced by
`calculate_segment_elasticity` is a valid distribution: every bucket is
nonnegative and the five buckets sum to 1 within `1e-9` (in fact
exactly — a convex combination of the archetype distributions, each of
which sums to 1). -/
theorem blended_time_lag_is_distribution (noise : ℚ) (w : ProfileWeights)
    (hnn : w.Nonneg) (hsum : w.total = 1) :
    (calculate_segment_elasticity noise w).repeat_loss_axis.time_lag_distribution.Nonneg ∧
      |(calculate_segment_elasticity noise
          w).repeat_loss_axis.time_lag_distribution.total - 1| ≤ 1 / 1000000000 := by
  obtain ⟨n1, n2, n3, n4, n5, n6, n7⟩ := hnn
  have ht : w.ultra_loyal + w.value_conscious + w.deal_hunter + w.content_driven +
      w.tier_flexible + w.premium_seeker + w.at_risk = 1 := hsum
  simp only [calculate_segment_elasticity, mixScalar, profile_ultra_loyal,
    profile_value_conscious, profile_deal_hunter, profile_content_driven,
    profile_tier_flexible, profile_premium_seeker, profile_at_risk,
    TimeLagDistribution.Nonneg, TimeLagDistribution.total]
  norm_num
  refine ⟨⟨?_, ?_, ?_, ?_, ?_⟩, ?_⟩
  · linarith
  · linarith
  · linarith
  · linarith
  · linarith
  · rw [abs_le]
    constructor <;> linarith

/-- Witness for C9 at the uniform weights. -/
theorem blended_time_lag_is_distribution_witness :
    (ProfileWeights.mk (1/7) (1/7) (1/7) (1/7) (1/7) (1/7) (1/7)).Nonneg ∧
      (ProfileWeights.mk (1/7) (1/7) (1/7) (1/7) (1/7) (1/7) (1/7)).total = 1 ∧
      ((calculate_segment_elasticity 0
          ⟨1/7, 1/7, 1/7, 1/7, 1/7, 1/7, 1/7⟩).repeat_loss_axis.time_lag_distribution.Nonneg ∧
        |(calculate_segment_elasticity 0
            ⟨1/7, 1/7, 1/7, 1/7, 1/7, 1/7, 1/7⟩).repeat_loss_axis.time_lag_distribution.total -
            1| ≤ 1 / 1000000000) :=
  ⟨by norm_num [ProfileWeights.Nonneg],
    by norm_num [ProfileWeights.total],
    blended_time_lag_is_distribution 0 _
      (by norm_num [ProfileWeights.Nonneg])
      (by norm_num [ProfileWeights.total])⟩

/-- C7: for the scenario `{new_price = 8.99, no promotion,
segment_elasticity = -1.8}`, `predict_acquisition` computes the linear
predictor `6.5 - 0.25 * 8.99 + 0.12 * 1.8` (= 4.4685 ≈ 4.469) and
returns `predicted_adds = exp(linear predictor) ≈ 87.2` within `±1`. -/
theorem acquisition_concrete_scenario :
    acquisition_log_adds ⟨some 8.99, none, some (-1.8)⟩ =
        6.5 - 0.25 * 8.99 + 0.12 * 1.8 ∧
      (predict_acquisition ⟨some 8.99, none, some (-1.8)⟩).predicted_adds =
        Real.exp ((6.5 - 0.25 * 8.99 + 0.12 * 1.8 : ℚ) : ℝ) ∧
      |(predict_acquisition ⟨some 8.99, none, some (-1.8)⟩).predicted_adds - 87.2| ≤ 1 := by
  have h1 : acquisition_log_adds ⟨some 8.99, none, some (-1.8)⟩ = 4.4685 := by
    norm_num [acquisition_log_adds, ACQUISITION_COEFFICIENTS, abs_of_nonneg]
  refine ⟨by rw [h1]; norm_num, ?_, ?_⟩
  · simp only [predict_acquisition]
    rw [h1]
    norm_num
  · simp only [predict_acquisition]
    rw [h1]
    have hc : ((4.4685 : ℚ) : ℝ) = 4.4685 := by norm_num
    rw [hc, abs_le]
    have hb := exp_4_4685_bounds
    constructor <;> linarith [hb.1, hb.2]

/-- Numeric bounds for the concrete 2-tier from-Ad-Lite softmax with
utilities `(0, -1.62, -999, -2.59)`. -/
lemma softmax4_concrete_bounds :
    |(softmax4 (0 : ℝ) (-1.62) (-999) (-2.59)).p0 - 0.786| ≤ 0.01 ∧
      |(softmax4 (0 : ℝ) (-1.62) (-999) (-2.59)).p1 - 0.155| ≤ 0.01 ∧
      |(softmax4 (0 : ℝ) (-1.62) (-999) (-2.59)).p3 - 0.059| ≤ 0.01 := by
  have hm : smMax (0 : ℝ) (-1.62) (-999) (-2.59) = 0 := by
    unfold smMax
    rw [max_eq_left (by norm_num : (-1.62 : ℝ) ≤ 0),
      max_eq_right (by norm_num : (-999 : ℝ) ≤ -2.59),
      max_eq_left (by norm_num : (-2.59 : ℝ) ≤ 0)]
  have hD : smDenom (0 : ℝ) (-1.62) (-999) (-2.59) =
      1 + Real.exp (-1.62) + Real.exp (-999) + Real.exp (-2.59) := by
    unfold smDenom
    rw [hm]
    norm_num [Real.exp_zero]
  have ha := exp_neg_1_62_bounds
  have hc := exp_neg_2_59_bounds
  have hb1 : (0 : ℝ) < Real.exp (-999) := Real.exp_pos _
  have hb2 : Real.exp (-999 : ℝ) ≤ 1 / 1000000 := exp_neg_999_le
  have hD_lo : (1.2727 : ℝ) ≤ smDenom (0 : ℝ) (-1.62) (-999) (-2.59) := by
    rw [hD]
    linarith [ha.1, hc.1]
  have hD_hi : smDenom (0 : ℝ) (-1.62) (-999) (-2.59) ≤ 1.274 := by
    rw [hD]
    linarith [ha.2, hc.2]
  have hD_pos : (0 : ℝ) < smDenom (0 : ℝ) (-1.62) (-999) (-2.59) := smDenom_pos _ _ _ _
  refine ⟨?_, ?_, ?_⟩
  · have hp : (softmax4 (0 : ℝ) (-1.62) (-999) (-2.59)).p0 =
        1 / smDenom (0 : ℝ) (-1.62) (-999) (-2.59) := by
      simp only [softmax4]
      rw [hm]
      norm_num
    rw [hp, abs_le]
    have h1 : 1 / smDenom (0 : ℝ) (-1.62) (-999) (-2.59) ≤ 1 / 1.2727 :=
      one_div_le_one_div_of_le (by norm_num) hD_lo
    have h2 : 1 / (1.274 : ℝ) ≤ 1 / smDenom (0 : ℝ) (-1.62) (-999) (-2.59) :=
      one_div_le_one_div_of_le hD_pos hD_hi
    norm_num at h1 h2 ⊢
    constructor <;> linarith
  · have hp : (softmax4 (0 : ℝ) (-1.62) (-999) (-2.59)).p1 =
        Real.exp (-1.62) / smDenom (0 : ℝ) (-1.62) (-999) (-2.59) := by
      simp only [softmax4]
      rw [hm]
      norm_num
    rw [hp, abs_le]
    have h1 : Real.exp (-1.62) / smDenom (0 : ℝ) (-1.62) (-999) (-2.59) ≤
        0.1986 / 1.2727 :=
      div_le_div (by norm_num) ha.2 (by norm_num) hD_lo
    have h2 : (0.1978 : ℝ) / 1.274 ≤
        Real.exp (-1.62) / smDenom (0 : ℝ) (-1.62) (-999) (-2.59) :=
      div_le_div (Real.exp_pos _).le ha.1 hD_pos hD_hi
    norm_num at h1 h2 ⊢
    constructor <;> linarith
  · have hp : (softmax4 (0 : ℝ) (-1.62) (-999) (-2.59)).p3 =
        Real.exp (-2.59) / smDenom (0 : ℝ) (-1.62) (-999) (-2.59) := by
      simp only [softmax4]
      rw [hm]
      norm_num
    rw [hp, abs_le]
    have h1 : Real.exp (-2.59) / smDenom (0 : ℝ) (-1.62) (-999) (-2.59) ≤
        0.0753 / 1.2727 :=
      div_le_div (by norm_num) hc.2 (by norm_num) hD_lo
    have h2 : (0.0749 : ℝ) / 1.274 ≤
        Real.exp (-2.59) / smDenom (0 : ℝ) (-1.62) (-999) (-2.59) :=
      div_le_div (Real.exp_pos _).le hc.1 hD_pos hD_hi
    norm_num at h1 h2 ⊢
    constructor <;> linarith

/-- C8: for the 2-tier scenario `{ad_supported_price = 5.99,
ad_free_price = 8.99, no promotion}` (tenure fixed at 12), the
from-Ad-Lite utilities are `stay = 0`, `upgrade = -1.62`,
`cancel = -2.59` (bundle is replaced by the `-999` sentinel), and the
returned probabilities are approximately `stay ≈ 0.786`,
`to_ad_free ≈ 0.155`, `to_bundle = 0.0`, `cancel ≈ 0.059`, each
within `±0.01`. -/
theorem migration_2tier_concrete_scenario :
    u_upgrade_2t ⟨none, none, false, some 5.99, some 8.99⟩ = -1.62 ∧
      u_cancel_as_2t ⟨none, none, false, some 5.99, some 8.99⟩ = -2.59 ∧
      |(((predict_2tier ⟨none, none, false, some 5.99, some 8.99⟩).from_ad_supported).getD
          ⟨0, 0, 0, 0, 0⟩).stay - 0.786| ≤ 0.01 ∧
      |(((predict_2tier ⟨none, none, false, some 5.99, some 8.99⟩).from_ad_supported).getD
          ⟨0, 0, 0, 0, 0⟩).to_ad_free - 0.155| ≤ 0.01 ∧
      (((predict_2tier ⟨none, none, false, some 5.99, some 8.99⟩).from_ad_supported).getD
          ⟨0, 0, 0, 0, 0⟩).to_bundle = 0 ∧
      |(((predict_2tier ⟨none, none, false, some 5.99, some 8.99⟩).from_ad_supported).getD
          ⟨0, 0, 0, 0, 0⟩).cancel - 0.059| ≤ 0.01 := by
  have hu : u_upgrade_2t ⟨none, none, false, some 5.99, some 8.99⟩ = -1.62 := by
    norm_num [u_upgrade_2t, MIGRATION_COEFFICIENTS_2TIER]
  have hcan : u_cancel_as_2t ⟨none, none, false, some 5.99, some 8.99⟩ = -2.59 := by
    norm_num [u_cancel_as_2t, MIGRATION_COEFFICIENTS_2TIER]
  have c1 : (((-1.62 : ℚ)) : ℝ) = -1.62 := by norm_num
  have c2 : (((-2.59 : ℚ)) : ℝ) = -2.59 := by norm_num
  have hb := softmax4_concrete_bounds
  refine ⟨hu, hcan, ?_, ?_, ?_, ?_⟩ <;>
    simp only [predict_2tier, Option.getD, hu, hcan, c1, c2]
  · exact hb.1
  · exact hb.2.1
  · exact hb.2.2
